import Mathlib

/-!
Verification of the AI assistant orchestration layer of the WeightLoss
fitness-tracking backend: tool-call dispatch (`app/routes/ai.py`), the
provider adapter and context builder (`app/services/ai_service.py`), and
the macro calculator (`app/services/macro_calculator.py`), shallowly
embedded in Lean.  Python dictionaries, values, truthiness, exceptions
and string formatting are modelled explicitly; external collaborators
(clock, ISO-date parsing, the Open Food Facts client, the two vendor
APIs) are supplied as oracles in an environment record.
-/

namespace WeightLoss

/-- Model of an untyped Python value as it flows through tool-call
arguments, stored rows and tool results. -/
inductive PyVal where
  | none
  | bool (b : Bool)
  | int (n : Int)
  | num (q : Rat)
  | str (s : String)
  | list (xs : List PyVal)
  | dict (kvs : List (String × PyVal))

/-- First-match lookup in a Python dict modelled as an association list. -/
def dictGet (kvs : List (String × PyVal)) (k : String) : Option PyVal :=
  (kvs.find? (fun kv => kv.1 = k)).map (fun kv => kv.2)

/-- Python truthiness (`bool(v)`) for the modelled values. -/
def PyVal.truthy : PyVal → Bool
  | .none => false
  | .bool b => b
  | .int n => n != 0
  | .num q => q != 0
  | .str s => s != ""
  | .list xs => !xs.isEmpty
  | .dict kvs => !kvs.isEmpty

/-- Python `str(v)` as used in f-string interpolation.  Exact rendering of
floats and containers is irrelevant to every claim; only `None`, booleans,
integers and strings are interpolated on paths the claims touch. -/
def PyVal.pyStr : PyVal → String
  | .none => "None"
  | .bool b => if b then "True" else "False"
  | .int n => toString n
  | .num q => toString q
  | .str s => s
  | .list _ => "<list>"
  | .dict _ => "<dict>"

/-- A non-empty exception message (every message CPython produces at the
raise sites modelled here is non-empty). -/
def ErrMsg : Type := { s : String // s ≠ "" }

/-- Build a message from an arbitrary part followed by a non-empty literal
tail, as in CPython enum messages where the offending value precedes the
fixed text `is not a valid X`. -/
def mkMsg (front : String) (tail : String) (h : tail ≠ "" := by decide) : ErrMsg :=
  ⟨front ++ tail, by
    intro hc
    have hd := congrArg String.data hc
    simp only [String.data_append] at hd
    rcases List.append_eq_nil.mp hd with ⟨-, h2⟩
    exact h (by cases tail; simp_all)⟩

/-- Model of a Python exception raised inside a tool handler. -/
inductive PyErr where
  | keyError (k : String)
  | valueError (m : ErrMsg)
  | typeError (m : ErrMsg)

/-- Model of `str(e)` for a modelled exception: `str(KeyError(k))` is `repr(k)`,
value/type errors render their message. -/
def PyErr.msg : PyErr → String
  | .keyError k => "\x27" ++ k ++ "\x27"
  | .valueError m => m.1
  | .typeError m => m.1

/-- Python `str.strip()` (trim ASCII whitespace on both ends). -/
def pyIsSpace (c : Char) : Bool :=
  c = ' ' ∨ c = '\t' ∨ c = '\n' ∨ c = '\x0d'

/-- Python `str.strip()` modelled structurally over the character list. -/
def pyStrip (s : String) : String :=
  ⟨((s.data.dropWhile pyIsSpace).reverse.dropWhile pyIsSpace).reverse⟩

/-- Python `str.lower()` modelled structurally over the character list. -/
def pyLower (s : String) : String :=
  ⟨s.data.map Char.toLower⟩

/-- Model of `GoalType` from `app/models/user.py`. -/
inductive GoalType where
  | cut | maintain | bulk
deriving DecidableEq

def GoalType.value : GoalType → String
  | .cut => "cut"
  | .maintain => "maintain"
  | .bulk => "bulk"

/-- Model of `ActivityLevel` from `app/models/user.py`. -/
inductive ActivityLevel where
  | sedentary | light | moderate | active | very_active
deriving DecidableEq

def ActivityLevel.value : ActivityLevel → String
  | .sedentary => "sedentary"
  | .light => "light"
  | .moderate => "moderate"
  | .active => "active"
  | .very_active => "very_active"

/-- Model of `Sex` from `app/models/user.py`. -/
inductive Sex where
  | male | female
deriving DecidableEq

/-- Model of `MealType` from `app/models/nutrition.py`. -/
inductive MealType where
  | breakfast | lunch | dinner | snack | other
deriving DecidableEq

def MealType.value : MealType → String
  | .breakfast => "breakfast"
  | .lunch => "lunch"
  | .dinner => "dinner"
  | .snack => "snack"
  | .other => "other"

/-- Model of `WorkoutType` from `app/models/workout.py`. -/
inductive WorkoutType where
  | strength | cardio | hiit | flexibility | sports
  | walking | running | cycling | swimming | other
deriving DecidableEq

def WorkoutType.value : WorkoutType → String
  | .strength => "strength"
  | .cardio => "cardio"
  | .hiit => "hiit"
  | .flexibility => "flexibility"
  | .sports => "sports"
  | .walking => "walking"
  | .running => "running"
  | .cycling => "cycling"
  | .swimming => "swimming"
  | .other => "other"

/-- Model of `MuscleGroup` from `app/models/workout.py`. -/
inductive MuscleGroup where
  | chest | back | shoulders | biceps | triceps | forearms | core
  | quads | hamstrings | glutes | calves | full_body | cardio
deriving DecidableEq

def MuscleGroup.value : MuscleGroup → String
  | .chest => "chest"
  | .back => "back"
  | .shoulders => "shoulders"
  | .biceps => "biceps"
  | .triceps => "triceps"
  | .forearms => "forearms"
  | .core => "core"
  | .quads => "quads"
  | .hamstrings => "hamstrings"
  | .glutes => "glutes"
  | .calves => "calves"
  | .full_body => "full_body"
  | .cardio => "cardio"

/-- Model of `MessageRole` from `app/models/chat.py`. -/
inductive MessageRole where
  | user | assistant | system | tool
deriving DecidableEq

def MessageRole.value : MessageRole → String
  | .user => "user"
  | .assistant => "assistant"
  | .system => "system"
  | .tool => "tool"

/-- Python enum constructor `GoalType(v)`: `ValueError` for a value that is
not a member (`TypeError` for unhashable values). -/
def GoalType.ofVal : PyVal → Except PyErr GoalType
  | .str "cut" => .ok .cut
  | .str "maintain" => .ok .maintain
  | .str "bulk" => .ok .bulk
  | .list _ => .error (.typeError (mkMsg "" "unhashable type"))
  | .dict _ => .error (.typeError (mkMsg "" "unhashable type"))
  | v => .error (.valueError (mkMsg v.pyStr " is not a valid GoalType"))

def ActivityLevel.ofVal : PyVal → Except PyErr ActivityLevel
  | .str "sedentary" => .ok .sedentary
  | .str "light" => .ok .light
  | .str "moderate" => .ok .moderate
  | .str "active" => .ok .active
  | .str "very_active" => .ok .very_active
  | .list _ => .error (.typeError (mkMsg "" "unhashable type"))
  | .dict _ => .error (.typeError (mkMsg "" "unhashable type"))
  | v => .error (.valueError (mkMsg v.pyStr " is not a valid ActivityLevel"))

def MealType.ofVal : PyVal → Except PyErr MealType
  | .str "breakfast" => .ok .breakfast
  | .str "lunch" => .ok .lunch
  | .str "dinner" => .ok .dinner
  | .str "snack" => .ok .snack
  | .str "other" => .ok .other
  | .list _ => .error (.typeError (mkMsg "" "unhashable type"))
  | .dict _ => .error (.typeError (mkMsg "" "unhashable type"))
  | v => .error (.valueError (mkMsg v.pyStr " is not a valid MealType"))

def WorkoutType.ofVal : PyVal → Except PyErr WorkoutType
  | .str "strength" => .ok .strength
  | .str "cardio" => .ok .cardio
  | .str "hiit" => .ok .hiit
  | .str "flexibility" => .ok .flexibility
  | .str "sports" => .ok .sports
  | .str "walking" => .ok .walking
  | .str "running" => .ok .running
  | .str "cycling" => .ok .cycling
  | .str "swimming" => .ok .swimming
  | .str "other" => .ok .other
  | .list _ => .error (.typeError (mkMsg "" "unhashable type"))
  | .dict _ => .error (.typeError (mkMsg "" "unhashable type"))
  | v => .error (.valueError (mkMsg v.pyStr " is not a valid WorkoutType"))

def MuscleGroup.ofVal : PyVal → Except PyErr MuscleGroup
  | .str "chest" => .ok .chest
  | .str "back" => .ok .back
  | .str "shoulders" => .ok .shoulders
  | .str "biceps" => .ok .biceps
  | .str "triceps" => .ok .triceps
  | .str "forearms" => .ok .forearms
  | .str "core" => .ok .core
  | .str "quads" => .ok .quads
  | .str "hamstrings" => .ok .hamstrings
  | .str "glutes" => .ok .glutes
  | .str "calves" => .ok .calves
  | .str "full_body" => .ok .full_body
  | .str "cardio" => .ok .cardio
  | .list _ => .error (.typeError (mkMsg "" "unhashable type"))
  | .dict _ => .error (.typeError (mkMsg "" "unhashable type"))
  | v => .error (.valueError (mkMsg v.pyStr " is not a valid MuscleGroup"))

/-- Tool-call arguments: the untyped `dict` a handler receives. -/
abbrev Args := List (String × PyVal)

/-- Model of `args[k]` — `KeyError` when the key is absent. -/
def Args.item (args : Args) (k : String) : Except PyErr PyVal :=
  match dictGet args k with
  | some v => .ok v
  | none => .error (.keyError k)

/-- Model of `args.get(k)` — `None` when the key is absent. -/
def Args.getd (args : Args) (k : String) : PyVal :=
  (dictGet args k).getD .none

/-- Model of `args.get(k, d)` with an explicit default. -/
def Args.getDefault (args : Args) (k : String) (d : PyVal) : PyVal :=
  (dictGet args k).getD d

/-- Model of `k in args`. -/
def Args.hasKey (args : Args) (k : String) : Bool :=
  (dictGet args k).isSome

/-- Interpret a value as a Python number (`bool` is an `int` subtype);
the `TypeError` stands for the error CPython raises when the value first
meets an arithmetic operation or the database driver. -/
def PyVal.asNum : PyVal → Except PyErr Rat
  | .bool b => .ok (if b then 1 else 0)
  | .int n => .ok (n : Rat)
  | .num q => .ok q
  | _ => .error (.typeError (mkMsg "" "unsupported operand type for arithmetic"))

/-- Model of `UUID(v)`: parses a string id, `ValueError` on a malformed string,
`TypeError` on a non-string.  Entity ids are modelled as naturals. -/
def parseUUID : PyVal → Except PyErr Nat
  | .str s =>
    match s.toNat? with
    | some n => .ok n
    | none => .error (.valueError (mkMsg "" "badly formed hexadecimal UUID string"))
  | _ => .error (.typeError (mkMsg "" "one of the hex, bytes, bytes_le, fields, or int arguments must be given"))

/-- Python `+` on modelled values, as used by `sum(...)`. -/
def pyAdd : PyVal → PyVal → Except PyErr PyVal
  | .int a, .int b => .ok (.int (a + b))
  | .int a, .num b => .ok (.num ((a : Rat) + b))
  | .int a, .bool b => .ok (.int (a + if b then 1 else 0))
  | .num a, .int b => .ok (.num (a + (b : Rat)))
  | .num a, .num b => .ok (.num (a + b))
  | .num a, .bool b => .ok (.num (a + if b then 1 else 0))
  | .bool a, .int b => .ok (.int ((if a then 1 else 0) + b))
  | .bool a, .num b => .ok (.num ((if a then 1 else 0) + b))
  | .bool a, .bool b => .ok (.int ((if a then 1 else 0) + (if b then 1 else 0)))
  | _, _ => .error (.typeError (mkMsg "" "unsupported operand type(s) for +"))

/-- Python `sum(...)` — a left fold of `+` starting from the int `0`. -/
def pySum (xs : List PyVal) : Except PyErr PyVal :=
  xs.foldlM pyAdd (.int 0)

/-- Python `round(q)` — round half to even, to an integer. -/
def pyRound (q : Rat) : Int :=
  let f : Int := ⌊q⌋
  let r : Rat := q - (f : Rat)
  if r < 1/2 then f
  else if r > 1/2 then f + 1
  else if f % 2 = 0 then f else f + 1

/-- Python `round(q, 1)` — round half to even, to one decimal place. -/
def pyRound1 (q : Rat) : Rat :=
  (pyRound (q * 10) : Rat) / 10

/-- Model of `timedelta.days` of a difference of `d` seconds: floor division. -/
def pyDays (d : Int) : Int :=
  Int.fdiv d 86400

/-- Model of `UserProfile` row (`app/models/user.py`).  Fields a tool handler
assigns raw argument values to are kept as `PyVal`; the two goal enums
are typed since they are only ever assigned through the validating enum
constructors. -/
structure UserProfile where
  id : Nat
  display_name : PyVal := .none
  sex : Option Sex := Option.none
  birth_date : Option (Int × Int × Int) := Option.none
  height_cm : PyVal := .none
  current_weight_kg : PyVal := .none
  activity_level : ActivityLevel := .moderate
  goal_type : GoalType := .maintain
  goal_rate_kg_per_week : PyVal := .num 0
  target_weight_kg : PyVal := .none
  use_metric : Bool := true
  daily_water_goal_ml : Int := 2500
  protein_per_kg : Rat := 18/10
  date_of_birth : Option Int := Option.none

/-- Model of `UserProfile.age` property: computed from `birth_date` and the local
date `(year, month, day)` of `datetime.now()`. -/
def UserProfile.age (u : UserProfile) (today : Int × Int × Int) : Option Int :=
  u.birth_date.map (fun b =>
    today.1 - b.1 -
      (if today.2.1 < b.2.1 ∨ (today.2.1 = b.2.1 ∧ today.2.2 < b.2.2) then 1 else 0))

/-- Model of `MacroTargets` row (`app/models/user.py`). -/
structure MacroTargetsRow where
  user_id : Nat
  calories : PyVal
  protein_g : PyVal
  carbs_g : PyVal
  fat_g : PyVal
  fiber_g : PyVal := .none
  bmr : PyVal := .none
  tdee : PyVal := .none
  calculated_at : Option Int := Option.none

/-- Model of `FoodItem` row (`app/models/nutrition.py`), as created by `_add_meal`. -/
structure FoodItemRow where
  name : PyVal
  grams : PyVal
  calories : PyVal
  protein_g : PyVal
  carbs_g : PyVal
  fat_g : PyVal
  fiber_g : PyVal := .none
  source : String := "chat"

/-- Model of `Meal` row (`app/models/nutrition.py`). -/
structure MealRow where
  id : Nat
  user_id : Nat
  name : PyVal
  meal_type : MealType
  timestamp : Int
  items : List FoodItemRow := []
  total_calories : PyVal := .int 0
  total_protein_g : PyVal := .num 0
  total_carbs_g : PyVal := .num 0
  total_fat_g : PyVal := .num 0
  total_fiber_g : PyVal := .none

/-- Model of `Meal.recalculate_totals` (`app/models/nutrition.py`): each total is a
Python `sum` over the item fields; the fiber total keeps only truthy item
values and collapses a falsy sum to `None`. -/
def MealRow.recalcTotals (m : MealRow) : Except PyErr MealRow := do
  let cal ← pySum (m.items.map (fun i => i.calories))
  let pro ← pySum (m.items.map (fun i => i.protein_g))
  let car ← pySum (m.items.map (fun i => i.carbs_g))
  let fat ← pySum (m.items.map (fun i => i.fat_g))
  let fib ← pySum ((m.items.filter (fun i => i.fiber_g.truthy)).map (fun i => i.fiber_g))
  .ok { m with
    total_calories := cal, total_protein_g := pro, total_carbs_g := car,
    total_fat_g := fat,
    total_fiber_g := if fib.truthy then fib else .none }

/-- Model of `WorkoutLog` row (`app/models/workout.py`). -/
structure WorkoutLogRow where
  id : Nat
  user_id : Nat
  name : PyVal
  workout_type : WorkoutType
  source : String := "chat"
  start_time : Int
  duration_min : PyVal
  calories_burned : PyVal := .none

/-- Model of `WorkoutExercise` row (`app/models/workout.py`). -/
structure WorkoutExerciseRow where
  id : Nat
  name : PyVal
  muscle_group : Option MuscleGroup := Option.none
  equipment : PyVal := .none
  notes : PyVal := .none
  sets : PyVal := .int 3
  reps_min : PyVal := .none
  reps_max : PyVal := .none
  duration_sec : PyVal := .none
  rest_sec : PyVal := .int 60
  superset_group : PyVal := .none
  order_index : PyVal := .int 0

/-- Model of `WorkoutPlan` row (`app/models/workout.py`). -/
structure WorkoutPlanRow where
  id : Nat
  user_id : Nat
  name : PyVal
  description : PyVal := .none
  workout_type : WorkoutType
  scheduled_days : PyVal := .none
  estimated_duration_min : PyVal := .none
  is_active : PyVal := .bool true
  exercises : List WorkoutExerciseRow := []

/-- Model of `WaterEntry` row (`app/models/tracking.py`). -/
structure WaterEntryRow where
  id : Nat
  user_id : Nat
  amount_ml : PyVal
  timestamp : Int
  source : String := "manual"

/-- Model of `BodyWeightEntry` row (`app/models/tracking.py`). -/
structure BodyWeightEntryRow where
  id : Nat
  user_id : Nat
  weight_kg : PyVal
  timestamp : Int
  notes : PyVal := .none
  body_fat_percent : PyVal := .none
  muscle_mass_kg : PyVal := .none
  water_percent : PyVal := .none
  source : String := "manual"

/-- Model of `SavedFood` row (`app/models/nutrition.py`). -/
structure SavedFoodRow where
  id : Nat
  user_id : Nat
  name : PyVal
  brand : PyVal := .none
  source : String := "manual"
  calories_per_100g : PyVal
  protein_per_100g : PyVal
  carbs_per_100g : PyVal
  fat_per_100g : PyVal
  default_serving_g : PyVal := .int 100

/-- Model of `ChatMessage` row (`app/models/chat.py`), the fields the history
query touches. -/
structure ChatMessageRow where
  user_id : Nat
  role : MessageRole
  content : String
  timestamp : Int
  conversation_id : Option String := Option.none

/-- The per-user slice of the data store the dispatcher reads and writes.
`next_id` models the id generator (`uuid4`). -/
structure AppState where
  user : UserProfile
  macro_targets : Option MacroTargetsRow := Option.none
  meals : List MealRow := []
  workouts : List WorkoutLogRow := []
  plans : List WorkoutPlanRow := []
  water_entries : List WaterEntryRow := []
  weight_entries : List BodyWeightEntryRow := []
  saved_foods : List SavedFoodRow := []
  next_id : Nat := 0

/-- Draw a fresh entity id. -/
def AppState.freshId (s : AppState) : Nat × AppState :=
  (s.next_id, { s with next_id := s.next_id + 1 })

/-- A food product returned by the Open Food Facts client
(`app/services/open_food_facts.py`), as consumed by `_search_food`. -/
structure OffProduct where
  name : PyVal
  brand : PyVal
  calories_per_100g : PyVal
  protein_per_100g : PyVal
  carbs_per_100g : PyVal
  fat_per_100g : PyVal

/-- External collaborators of the dispatcher: clocks, date parsing and
formatting, and the Open Food Facts client, supplied as oracles.
Timestamps are seconds as integers. -/
structure Env where
  utcnow : Int
  now : Int
  today : Int × Int × Int
  nowWeekday : Int
  parseIso : String → Option Int
  parseDate : String → Option Int
  fmtDate : Int → String
  fmtRatDate : Rat → String
  offBarcode : PyVal → Option OffProduct
  offSearch : PyVal → List OffProduct

/-- Model of `datetime.fromisoformat(args["timestamp"]) if args.get("timestamp")
else datetime.utcnow()` — the shared timestamp idiom of the `_add_*`
handlers. -/
def getTimestamp (env : Env) (args : Args) : Except PyErr Int :=
  let v := args.getd "timestamp"
  if v.truthy then
    match v with
    | .str s =>
      match env.parseIso s with
      | some t => .ok t
      | none => .error (.valueError (mkMsg "" "Invalid isoformat string"))
    | _ => .error (.typeError (mkMsg "" "fromisoformat: argument must be str"))
  else
    .ok env.utcnow

/-- Model of `ACTIVITY_MULTIPLIERS.get(level, 1.55)` — every level is present in
the table, so the default is never taken. -/
def activityMultiplier : ActivityLevel → Rat
  | .sedentary => 12/10
  | .light => 1375/1000
  | .moderate => 155/100
  | .active => 1725/1000
  | .very_active => 19/10

/-- Model of `MacroCalculator.calculate_bmr` (Mifflin-St Jeor). -/
def calculateBmr (sex : Sex) (weight_kg height_cm : Rat) (age : Int) : Int :=
  let bmr : Rat := 10 * weight_kg + (625/100) * height_cm - 5 * (age : Rat)
  let bmr := if sex = .male then bmr + 5 else bmr - 161
  pyRound bmr

/-- Model of `MacroCalculator.calculate_tdee`. -/
def calculateTdee (bmr : Int) (level : ActivityLevel) : Int :=
  pyRound ((bmr : Rat) * activityMultiplier level)

/-- Model of `MacroCalculator.calculate_target_calories`; the weekly rate reaches
arithmetic only on the non-maintenance branches (`7700 / 7 = 1100`). -/
def calculateTargetCalories (tdee : Int) (goal : GoalType) (rate : PyVal) :
    Except PyErr (Int × Int) :=
  if goal = .maintain then .ok (tdee, 0)
  else
    match rate.asNum with
    | .error e => .error e
    | .ok r =>
      let dailyAdjustment := pyRound (1100 * r)
      if goal = .cut then
        let target := tdee - dailyAdjustment
        let target := max target 1200
        .ok (target, -dailyAdjustment)
      else
        let surplus := pyRound ((dailyAdjustment : Rat) * (1/2))
        .ok (tdee + surplus, surplus)

/-- The dataclass `MacroTargets` returned by the calculator. -/
structure CalcResult where
  calories : Int
  protein_g : Rat
  carbs_g : Rat
  fat_g : Rat
  fiber_g : Rat
  bmr : Int
  tdee : Int
  deficit_or_surplus : Int

/-- Model of `MacroCalculator.calculate_macros` as `_set_goal` invokes it: a fresh
`MacroCalculator()` with default parameters and no protein override, so
the protein ratio is the default 1.8 g/kg.  Weight and height arrive as
raw profile attributes and meet arithmetic first. -/
def calculateMacros (sex : Sex) (weight height : PyVal) (age : Int)
    (level : ActivityLevel) (goal : GoalType) (rate : PyVal) :
    Except PyErr CalcResult := do
  let w ← weight.asNum
  let h ← height.asNum
  let proteinRatio : Rat := 18/10
  let bmr := calculateBmr sex w h age
  let tdee := calculateTdee bmr level
  let (target, adjustment) ← calculateTargetCalories tdee goal rate
  let protein_g := pyRound1 (w * proteinRatio)
  let proteinCal := protein_g * 4
  let minProteinCal := (target : Rat) * (1/10)
  let (protein_g, proteinCal) :=
    if proteinCal < minProteinCal then
      let pg := pyRound1 (minProteinCal / 4)
      (pg, pg * 4)
    else (protein_g, proteinCal)
  let fatCal := (target : Rat) * (25/100)
  let fat_g := pyRound1 (fatCal / 9)
  let remaining := (target : Rat) - proteinCal - fatCal
  let carbs_g := pyRound1 (max (remaining / 4) 0)
  let fiber_g := pyRound1 (((target : Rat) / 1000) * 14)
  .ok { calories := target, protein_g := protein_g, carbs_g := carbs_g,
        fat_g := fat_g, fiber_g := fiber_g, bmr := bmr, tdee := tdee,
        deficit_or_surplus := adjustment }

/-- Model of `ToolCall` (`app/schemas/chat.py`). -/
structure ToolCall where
  id : String
  name : String
  arguments : Args

/-- Model of `ToolResult` (`app/schemas/chat.py`): `result` is `Any` (so `.none`
models a null result), `success` defaults to true and `error` to null. -/
structure ToolResult where
  tool_call_id : String
  result : PyVal
  success : Bool := true
  error : Option String := Option.none

/-- One food item of `_add_meal`, built from a raw element of the
`items` argument (field evaluation order as in the source call). -/
def buildFoodItem (v : PyVal) : Except PyErr FoodItemRow :=
  match v with
  | .dict kvs => do
    let nameV ← Args.item kvs "name"
    let grams := Args.getDefault kvs "grams" (.int 100)
    let cal ← Args.item kvs "calories"
    let pro ← Args.item kvs "protein_g"
    let car ← Args.item kvs "carbs_g"
    let fat ← Args.item kvs "fat_g"
    .ok { name := nameV, grams := grams, calories := cal, protein_g := pro,
          carbs_g := car, fat_g := fat }
  | _ => .error (.typeError (mkMsg "" "item indices must be integers"))

/-- The `for item_data in args.get("items", [])` loop of `_add_meal`. -/
def buildFoodItems (v : PyVal) : Except PyErr (List FoodItemRow) :=
  match v with
  | .list xs => xs.mapM buildFoodItem
  | _ => .error (.typeError (mkMsg "" "object is not iterable"))

/-- Model of `_add_meal`. -/
def addMealTool (env : Env) (args : Args) (tid : String) (s : AppState) :
    Except PyErr ToolResult × AppState :=
  match getTimestamp env args with
  | .error e => (.error e, s)
  | .ok ts =>
  match MealType.ofVal (args.getDefault "meal_type" (.str "other")) with
  | .error e => (.error e, s)
  | .ok mt =>
  match args.item "name" with
  | .error e => (.error e, s)
  | .ok nameV =>
  match buildFoodItems (args.getDefault "items" (.list [])) with
  | .error e => (.error e, s)
  | .ok items =>
  let meal0 : MealRow :=
    { id := 0, user_id := s.user.id, name := nameV, meal_type := mt,
      timestamp := ts, items := items }
  match meal0.recalcTotals with
  | .error e => (.error e, s)
  | .ok meal1 =>
  let (mid, s1) := s.freshId
  let meal := { meal1 with id := mid }
  (.ok { tool_call_id := tid,
         result := .dict [("meal_id", .str (toString mid)), ("name", meal.name),
                          ("total_calories", meal.total_calories),
                          ("total_protein_g", meal.total_protein_g)],
         success := true },
   { s1 with meals := s1.meals ++ [meal] })

/-- Model of `_add_workout`. -/
def addWorkoutTool (env : Env) (args : Args) (tid : String) (s : AppState) :
    Except PyErr ToolResult × AppState :=
  match getTimestamp env args with
  | .error e => (.error e, s)
  | .ok ts =>
  match WorkoutType.ofVal (args.getDefault "workout_type" (.str "other")) with
  | .error e => (.error e, s)
  | .ok wt =>
  match args.item "name" with
  | .error e => (.error e, s)
  | .ok nameV =>
  match args.item "duration_min" with
  | .error e => (.error e, s)
  | .ok dur =>
  let (wid, s1) := s.freshId
  let log : WorkoutLogRow :=
    { id := wid, user_id := s.user.id, name := nameV, workout_type := wt,
      source := "chat", start_time := ts, duration_min := dur,
      calories_burned := args.getd "calories_burned" }
  (.ok { tool_call_id := tid,
         result := .dict [("workout_id", .str (toString wid)), ("name", log.name),
                          ("duration_min", log.duration_min)],
         success := true },
   { s1 with workouts := s1.workouts ++ [log] })

/-- One exercise of `_add_workout_plan` at loop index `i`: an untruthy or
invalid `muscle_group` degrades to `None` (`except ValueError`), while an
unhashable one still raises. -/
def buildPlanExercise (i : Nat) (v : PyVal) : Except PyErr WorkoutExerciseRow :=
  match v with
  | .dict kvs => do
    let mg ←
      (if (Args.getd kvs "muscle_group").truthy then
        match MuscleGroup.ofVal (Args.getd kvs "muscle_group") with
        | .ok m => .ok (some m)
        | .error (.valueError _) => .ok Option.none
        | .error e => .error e
      else .ok Option.none)
    let nameV ← Args.item kvs "name"
    .ok { id := 0, name := nameV, muscle_group := mg,
          equipment := Args.getd kvs "equipment", notes := Args.getd kvs "notes",
          sets := Args.getDefault kvs "sets" (.int 3),
          reps_min := Args.getd kvs "reps_min", reps_max := Args.getd kvs "reps_max",
          duration_sec := Args.getd kvs "duration_sec",
          rest_sec := Args.getDefault kvs "rest_sec" (.int 60),
          superset_group := Args.getd kvs "superset_group",
          order_index := Args.getDefault kvs "order_index" (.int i) }
  | _ => .error (.typeError (mkMsg "" "item indices must be integers"))

/-- The `enumerate(args.get("exercises", []))` loop of `_add_workout_plan`. -/
def buildPlanExercises (v : PyVal) : Except PyErr (List WorkoutExerciseRow) :=
  match v with
  | .list xs => xs.enum.mapM (fun p => buildPlanExercise p.1 p.2)
  | _ => .error (.typeError (mkMsg "" "object is not iterable"))

/-- The serialized exercise dict of the `_add_workout_plan` result. -/
def exercisePayload (ex : WorkoutExerciseRow) : PyVal :=
  .dict [("id", .str (toString ex.id)), ("name", ex.name),
         ("muscle_group", match ex.muscle_group with
                          | some m => .str m.value
                          | none => .none),
         ("equipment", ex.equipment), ("notes", ex.notes), ("sets", ex.sets),
         ("reps_min", ex.reps_min), ("reps_max", ex.reps_max),
         ("duration_sec", ex.duration_sec), ("rest_sec", ex.rest_sec),
         ("superset_group", ex.superset_group), ("order_index", ex.order_index)]

/-- Assign fresh ids (drawn at flush) to the exercises of a plan. -/
def assignExerciseIds (s : AppState) : List WorkoutExerciseRow →
    List WorkoutExerciseRow × AppState
  | [] => ([], s)
  | ex :: rest =>
    let (eid, s1) := s.freshId
    let (rs, s2) := assignExerciseIds s1 rest
    ({ ex with id := eid } :: rs, s2)

/-- Model of `_add_workout_plan`. -/
def addWorkoutPlanTool (_env : Env) (args : Args) (tid : String) (s : AppState) :
    Except PyErr ToolResult × AppState :=
  match (match WorkoutType.ofVal (args.getDefault "workout_type" (.str "other")) with
         | .ok t => Except.ok t
         | .error (.valueError _) => Except.ok WorkoutType.other
         | .error e => Except.error e) with
  | .error e => (.error e, s)
  | .ok wt =>
  match args.item "name" with
  | .error e => (.error e, s)
  | .ok nameV =>
  match buildPlanExercises (args.getDefault "exercises" (.list [])) with
  | .error e => (.error e, s)
  | .ok exs0 =>
  let (pid, s1) := s.freshId
  let (exs, s2) := assignExerciseIds s1 exs0
  let plan : WorkoutPlanRow :=
    { id := pid, user_id := s.user.id, name := nameV,
      description := args.getd "description", workout_type := wt,
      scheduled_days := args.getd "scheduled_days",
      estimated_duration_min := args.getd "estimated_duration_min",
      is_active := args.getDefault "is_active" (.bool true), exercises := exs }
  (.ok { tool_call_id := tid,
         result := .dict [("plan_id", .str (toString pid)), ("name", plan.name),
                          ("workout_type", .str plan.workout_type.value),
                          ("exercise_count", .int plan.exercises.length),
                          ("scheduled_days", plan.scheduled_days),
                          ("estimated_duration_min", plan.estimated_duration_min),
                          ("description", plan.description),
                          ("is_active", plan.is_active),
                          ("exercises", .list (plan.exercises.map exercisePayload))],
         success := true },
   { s2 with plans := s2.plans ++ [plan] })

/-- Model of `_add_water`. -/
def addWaterTool (env : Env) (args : Args) (tid : String) (s : AppState) :
    Except PyErr ToolResult × AppState :=
  match getTimestamp env args with
  | .error e => (.error e, s)
  | .ok ts =>
  match args.item "amount_ml" with
  | .error e => (.error e, s)
  | .ok amt =>
  let (eid, s1) := s.freshId
  let entry : WaterEntryRow :=
    { id := eid, user_id := s.user.id, amount_ml := amt, timestamp := ts,
      source := "chat" }
  (.ok { tool_call_id := tid,
         result := .dict [("entry_id", .str (toString eid)),
                          ("amount_ml", entry.amount_ml)],
         success := true },
   { s1 with water_entries := s1.water_entries ++ [entry] })

/-- Model of `_add_weight`: creates the entry and also writes
`user.current_weight_kg` before reporting success.
`auth_service.sync_user_profile` is called by the source but not defined
under the sources provided; modelled from the spec as a non-failing
collaborator no-op (the spec treats auth as an excluded collaborator). -/
def addWeightTool (env : Env) (args : Args) (tid : String) (s : AppState) :
    Except PyErr ToolResult × AppState :=
  match getTimestamp env args with
  | .error e => (.error e, s)
  | .ok ts =>
  match args.item "weight_kg" with
  | .error e => (.error e, s)
  | .ok w =>
  let (eid, s1) := s.freshId
  let entry : BodyWeightEntryRow :=
    { id := eid, user_id := s.user.id, weight_kg := w, timestamp := ts,
      notes := args.getd "notes", source := "chat" }
  (.ok { tool_call_id := tid,
         result := .dict [("entry_id", .str (toString eid)),
                          ("weight_kg", entry.weight_kg)],
         success := true },
   { s1 with weight_entries := s1.weight_entries ++ [entry],
             user := { s1.user with current_weight_kg := w } })

/-- Write (or create) the user-scoped `MacroTargets` row from a
calculator result, as the recalculation branch of `_set_goal` does. -/
def setGoalWriteTargets (s : AppState) (res : CalcResult) : AppState :=
  match s.macro_targets with
  | some t =>
    let t2 := { t with calories := .int res.calories, protein_g := .num res.protein_g,
                       carbs_g := .num res.carbs_g, fat_g := .num res.fat_g }
    { s with macro_targets := some t2 }
  | none =>
    let t2 : MacroTargetsRow :=
      { user_id := s.user.id, calories := .int res.calories,
        protein_g := .num res.protein_g, carbs_g := .num res.carbs_g,
        fat_g := .num res.fat_g }
    { s with macro_targets := some t2 }

/-- The success result of `_set_goal`. -/
def setGoalResult (tid : String) (s : AppState) :
    Except PyErr ToolResult × AppState :=
  (.ok { tool_call_id := tid,
         result := .dict [("goal_type", .str s.user.goal_type.value),
                          ("activity_level", .str s.user.activity_level.value)],
         success := true }, s)

/-- Model of `_set_goal`: conditional goal-field updates, then macro recalculation
only when `user.sex and user.age and user.height_cm and
user.current_weight_kg` is truthy (`0`/`None` skip it).
`auth_service.sync_user_profile` is modelled as a no-op as in
`addWeightTool`. -/
def setGoalTool (env : Env) (args : Args) (tid : String) (s : AppState) :
    Except PyErr ToolResult × AppState :=
  match (if args.hasKey "goal_type" then GoalType.ofVal (args.getd "goal_type")
         else .ok s.user.goal_type) with
  | .error e => (.error e, s)
  | .ok g =>
  let u1 := { s.user with goal_type := g }
  let u2 := if args.hasKey "goal_rate_kg_per_week" then
              { u1 with goal_rate_kg_per_week := args.getd "goal_rate_kg_per_week" }
            else u1
  match (if args.hasKey "activity_level" then ActivityLevel.ofVal (args.getd "activity_level")
         else .ok u2.activity_level) with
  | .error e => (.error e, { s with user := u2 })
  | .ok al =>
  let u3 := { u2 with activity_level := al }
  let u4 := if args.hasKey "target_weight_kg" then
              { u3 with target_weight_kg := args.getd "target_weight_kg" }
            else u3
  let s4 := { s with user := u4 }
  match u4.sex, u4.age env.today with
  | some sx, some ag =>
    if ag != 0 && u4.height_cm.truthy && u4.current_weight_kg.truthy then
      match calculateMacros sx u4.current_weight_kg u4.height_cm ag
              u4.activity_level u4.goal_type u4.goal_rate_kg_per_week with
      | .error e => (.error e, s4)
      | .ok res => setGoalResult tid (setGoalWriteTargets s4 res)
    else setGoalResult tid s4
  | _, _ => setGoalResult tid s4

/-- Model of `_set_custom_macros`. -/
def setCustomMacrosTool (env : Env) (args : Args) (tid : String) (s : AppState) :
    Except PyErr ToolResult × AppState :=
  match args.item "calories" with
  | .error e => (.error e, s)
  | .ok cal =>
  match args.item "protein_g" with
  | .error e => (.error e, s)
  | .ok pro =>
  match args.item "carbs_g" with
  | .error e => (.error e, s)
  | .ok car =>
  match args.item "fat_g" with
  | .error e => (.error e, s)
  | .ok fat =>
  let fib := args.getd "fiber_g"
  let targets : MacroTargetsRow :=
    match s.macro_targets with
    | some t =>
      { t with calories := cal, protein_g := pro, carbs_g := car, fat_g := fat,
               fiber_g := fib, bmr := .none, tdee := .none,
               calculated_at := some env.utcnow }
    | none =>
      { user_id := s.user.id, calories := cal, protein_g := pro, carbs_g := car,
        fat_g := fat, fiber_g := fib, bmr := .none, tdee := .none }
  (.ok { tool_call_id := tid,
         result := .dict [("calories", targets.calories),
                          ("protein_g", targets.protein_g),
                          ("carbs_g", targets.carbs_g),
                          ("fat_g", targets.fat_g),
                          ("fiber_g", targets.fiber_g)],
         success := true },
   { s with macro_targets := some targets })

/-- Model of `_search_food`: barcode lookup, then free-text search, else a
validation failure; the Open Food Facts client is an oracle. -/
def searchFoodTool (env : Env) (args : Args) (tid : String) (s : AppState) :
    Except PyErr ToolResult × AppState :=
  if (args.getd "barcode").truthy then
    match env.offBarcode (args.getd "barcode") with
    | some p =>
      (.ok { tool_call_id := tid,
             result := .dict [("name", p.name), ("brand", p.brand),
                              ("calories_per_100g", p.calories_per_100g),
                              ("protein_per_100g", p.protein_per_100g),
                              ("carbs_per_100g", p.carbs_per_100g),
                              ("fat_per_100g", p.fat_per_100g)],
             success := true }, s)
    | none =>
      (.ok { tool_call_id := tid, result := .none, success := false,
             error := some "Product not found" }, s)
  else if (args.getd "query").truthy then
    (.ok { tool_call_id := tid,
           result := .list ((env.offSearch (args.getd "query")).map (fun p =>
             .dict [("name", p.name), ("brand", p.brand),
                    ("calories_per_100g", p.calories_per_100g)])),
           success := true }, s)
  else
    (.ok { tool_call_id := tid, result := .none, success := false,
           error := some "No query or barcode provided" }, s)

/-- Model of `_get_daily_summary`. -/
def getDailySummaryTool (env : Env) (args : Args) (tid : String) (s : AppState) :
    Except PyErr ToolResult × AppState :=
  let dv := args.getDefault "date" (.str (env.fmtDate env.now))
  match dv with
  | .str ds =>
    (match env.parseDate ds with
     | some d0 =>
       let dayStart := d0
       let dayEnd := d0 + 86399
       let meals := s.meals.filter (fun m =>
         m.user_id = s.user.id ∧ dayStart ≤ m.timestamp ∧ m.timestamp ≤ dayEnd)
       let waterRows := s.water_entries.filter (fun w =>
         w.user_id = s.user.id ∧ dayStart ≤ w.timestamp ∧ w.timestamp ≤ dayEnd)
       (match (do
          let wat ← pySum (waterRows.map (fun w => w.amount_ml))
          let cal ← pySum (meals.map (fun m => m.total_calories))
          let pro ← pySum (meals.map (fun m => m.total_protein_g))
          let car ← pySum (meals.map (fun m => m.total_carbs_g))
          let fat ← pySum (meals.map (fun m => m.total_fat_g))
          Except.ok (wat, cal, pro, car, fat) : Except PyErr _) with
        | .error e => (.error e, s)
        | .ok (wat, cal, pro, car, fat) =>
          (.ok { tool_call_id := tid,
                 result := .dict [("date", .str ds), ("calories", cal),
                                  ("protein_g", pro), ("carbs_g", car),
                                  ("fat_g", fat),
                                  ("meals_count", .int meals.length),
                                  ("water_ml", wat)],
                 success := true }, s))
     | none => (.error (.valueError (mkMsg "" "time data does not match format")), s))
  | _ => (.error (.typeError (mkMsg "" "strptime() argument 1 must be str")), s)

/-- Model of `_save_favorite_food`. -/
def saveFavoriteFoodTool (_env : Env) (args : Args) (tid : String) (s : AppState) :
    Except PyErr ToolResult × AppState :=
  match args.item "name" with
  | .error e => (.error e, s)
  | .ok nameV =>
  match args.item "calories_per_100g" with
  | .error e => (.error e, s)
  | .ok cal =>
  match args.item "protein_per_100g" with
  | .error e => (.error e, s)
  | .ok pro =>
  match args.item "carbs_per_100g" with
  | .error e => (.error e, s)
  | .ok car =>
  match args.item "fat_per_100g" with
  | .error e => (.error e, s)
  | .ok fat =>
  let (fid, s1) := s.freshId
  let food : SavedFoodRow :=
    { id := fid, user_id := s.user.id, name := nameV, brand := args.getd "brand",
      source := "manual", calories_per_100g := cal, protein_per_100g := pro,
      carbs_per_100g := car, fat_per_100g := fat,
      default_serving_g := args.getDefault "default_serving_g" (.int 100) }
  (.ok { tool_call_id := tid,
         result := .dict [("food_id", .str (toString fid)), ("name", food.name),
                          ("message", .str ("Saved " ++ food.name.pyStr ++ " to your favorites!"))],
         success := true },
   { s1 with saved_foods := s1.saved_foods ++ [food] })

/-- Model of `_get_favorite_foods` (`order_by(SavedFood.name)` modelled as a sort
on the rendered name). -/
def getFavoriteFoodsTool (_env : Env) (_args : Args) (tid : String) (s : AppState) :
    Except PyErr ToolResult × AppState :=
  let foods := List.insertionSort (fun a b => a.name.pyStr ≤ b.name.pyStr)
    (s.saved_foods.filter (fun f => f.user_id = s.user.id))
  (.ok { tool_call_id := tid,
         result := .dict [("foods", .list (foods.map (fun f =>
           .dict [("id", .str (toString f.id)), ("name", f.name),
                  ("brand", f.brand), ("calories_per_100g", f.calories_per_100g),
                  ("protein_per_100g", f.protein_per_100g)])))],
         success := true }, s)

/-- Model of `_update_meal`. -/
def updateMealTool (_env : Env) (args : Args) (tid : String) (s : AppState) :
    Except PyErr ToolResult × AppState :=
  match args.item "meal_id" with
  | .error e => (.error e, s)
  | .ok midV =>
  match parseUUID midV with
  | .error e => (.error e, s)
  | .ok mid =>
  match s.meals.find? (fun m => m.id = mid ∧ m.user_id = s.user.id) with
  | none =>
    (.ok { tool_call_id := tid, result := .none, success := false,
           error := some "Meal not found" }, s)
  | some meal =>
  let meal1 := if args.hasKey "name" then { meal with name := args.getd "name" } else meal
  match (if args.hasKey "meal_type" then
           (MealType.ofVal (args.getd "meal_type")).map some
         else .ok Option.none) with
  | .error e =>
    (.error e, { s with meals := s.meals.map (fun m => if m.id = meal.id then meal1 else m) })
  | .ok mtOpt =>
  let meal2 := match mtOpt with
               | some mt => { meal1 with meal_type := mt }
               | none => meal1
  (.ok { tool_call_id := tid,
         result := .dict [("meal_id", .str (toString meal2.id)), ("name", meal2.name),
                          ("message", .str "Meal updated!")],
         success := true },
   { s with meals := s.meals.map (fun m => if m.id = meal.id then meal2 else m) })

/-- Model of `_delete_meal`. -/
def deleteMealTool (_env : Env) (args : Args) (tid : String) (s : AppState) :
    Except PyErr ToolResult × AppState :=
  match args.item "meal_id" with
  | .error e => (.error e, s)
  | .ok midV =>
  match parseUUID midV with
  | .error e => (.error e, s)
  | .ok mid =>
  match s.meals.find? (fun m => m.id = mid ∧ m.user_id = s.user.id) with
  | none =>
    (.ok { tool_call_id := tid, result := .none, success := false,
           error := some "Meal not found" }, s)
  | some meal =>
  (.ok { tool_call_id := tid,
         result := .dict [("message", .str ("Deleted " ++ meal.name.pyStr))],
         success := true },
   { s with meals := s.meals.filter (fun m => ¬ m.id = meal.id) })

/-- Model of `_update_workout`. -/
def updateWorkoutTool (_env : Env) (args : Args) (tid : String) (s : AppState) :
    Except PyErr ToolResult × AppState :=
  match args.item "workout_id" with
  | .error e => (.error e, s)
  | .ok widV =>
  match parseUUID widV with
  | .error e => (.error e, s)
  | .ok wid =>
  match s.workouts.find? (fun w => w.id = wid ∧ w.user_id = s.user.id) with
  | none =>
    (.ok { tool_call_id := tid, result := .none, success := false,
           error := some "Workout not found" }, s)
  | some wkt =>
  let w1 := if args.hasKey "name" then { wkt with name := args.getd "name" } else wkt
  let w2 := if args.hasKey "duration_min" then
              { w1 with duration_min := args.getd "duration_min" }
            else w1
  (.ok { tool_call_id := tid,
         result := .dict [("workout_id", .str (toString w2.id)), ("name", w2.name),
                          ("message", .str "Workout updated!")],
         success := true },
   { s with workouts := s.workouts.map (fun w => if w.id = wkt.id then w2 else w) })

/-- Model of `_delete_workout`. -/
def deleteWorkoutTool (_env : Env) (args : Args) (tid : String) (s : AppState) :
    Except PyErr ToolResult × AppState :=
  match args.item "workout_id" with
  | .error e => (.error e, s)
  | .ok widV =>
  match parseUUID widV with
  | .error e => (.error e, s)
  | .ok wid =>
  match s.workouts.find? (fun w => w.id = wid ∧ w.user_id = s.user.id) with
  | none =>
    (.ok { tool_call_id := tid, result := .none, success := false,
           error := some "Workout not found" }, s)
  | some wkt =>
  (.ok { tool_call_id := tid,
         result := .dict [("message", .str ("Deleted " ++ wkt.name.pyStr))],
         success := true },
   { s with workouts := s.workouts.filter (fun w => ¬ w.id = wkt.id) })

/-- Model of `_update_workout_plan`. -/
def updateWorkoutPlanTool (_env : Env) (args : Args) (tid : String) (s : AppState) :
    Except PyErr ToolResult × AppState :=
  match args.item "plan_id" with
  | .error e => (.error e, s)
  | .ok pidV =>
  match parseUUID pidV with
  | .error e => (.error e, s)
  | .ok pid =>
  match s.plans.find? (fun p => p.id = pid ∧ p.user_id = s.user.id) with
  | none =>
    (.ok { tool_call_id := tid, result := .none, success := false,
           error := some "Plan not found" }, s)
  | some plan =>
  let p1 := if args.hasKey "name" then { plan with name := args.getd "name" } else plan
  let p2 := if args.hasKey "is_active" then { p1 with is_active := args.getd "is_active" } else p1
  (.ok { tool_call_id := tid,
         result := .dict [("plan_id", .str (toString p2.id)), ("name", p2.name),
                          ("message", .str "Plan updated!")],
         success := true },
   { s with plans := s.plans.map (fun p => if p.id = plan.id then p2 else p) })

/-- Model of `_delete_workout_plan`. -/
def deleteWorkoutPlanTool (_env : Env) (args : Args) (tid : String) (s : AppState) :
    Except PyErr ToolResult × AppState :=
  match args.item "plan_id" with
  | .error e => (.error e, s)
  | .ok pidV =>
  match parseUUID pidV with
  | .error e => (.error e, s)
  | .ok pid =>
  match s.plans.find? (fun p => p.id = pid ∧ p.user_id = s.user.id) with
  | none =>
    (.ok { tool_call_id := tid, result := .none, success := false,
           error := some "Plan not found" }, s)
  | some plan =>
  (.ok { tool_call_id := tid,
         result := .dict [("message", .str ("Deleted " ++ plan.name.pyStr))],
         success := true },
   { s with plans := s.plans.filter (fun p => ¬ p.id = plan.id) })

/-- Model of `_get_weekly_summary`: the week window is an offset from
`datetime.now()` by whole days (`timedelta` accepts fractional offsets,
hence rational endpoints). -/
def getWeeklySummaryTool (env : Env) (args : Args) (tid : String) (s : AppState) :
    Except PyErr ToolResult × AppState :=
  match (args.getDefault "week_offset" (.int 0)).asNum with
  | .error e => (.error e, s)
  | .ok off =>
  let weekStart : Rat := (env.now : Rat) - ((env.nowWeekday : Rat) + off * 7) * 86400
  let weekEnd : Rat := weekStart + 7 * 86400
  let meals := s.meals.filter (fun m =>
    m.user_id = s.user.id ∧ weekStart ≤ (m.timestamp : Rat) ∧ (m.timestamp : Rat) < weekEnd)
  let wkts := s.workouts.filter (fun w =>
    w.user_id = s.user.id ∧ weekStart ≤ (w.start_time : Rat) ∧ (w.start_time : Rat) < weekEnd)
  match (do
      let cal ← pySum (meals.map (fun m => m.total_calories))
      let pro ← pySum (meals.map (fun m => m.total_protein_g))
      let calN ← cal.asNum
      let proN ← pro.asNum
      let mins ← pySum ((wkts.filter (fun w => w.duration_min.truthy)).map
        (fun w => w.duration_min))
      Except.ok (calN, proN, mins) : Except PyErr _) with
  | .error e => (.error e, s)
  | .ok (calN, proN, mins) =>
  (.ok { tool_call_id := tid,
         result := .dict [("week_start", .str (env.fmtRatDate weekStart)),
                          ("week_end", .str (env.fmtRatDate weekEnd)),
                          ("avg_calories_per_day", .int (pyRound (calN / 7))),
                          ("avg_protein_per_day", .num (pyRound1 (proN / 7))),
                          ("total_workouts", .int wkts.length),
                          ("total_workout_minutes", mins)],
         success := true }, s)

/-- The most recent body-weight entry of the acting user
(`order_by(timestamp.desc()).limit(1)`). -/
def mostRecentWeightEntry (s : AppState) : Option BodyWeightEntryRow :=
  (List.insertionSort (fun a b => b.timestamp ≤ a.timestamp)
    (s.weight_entries.filter (fun e => e.user_id = s.user.id))).head?

/-- The three conditional body-composition field assignments of
`_add_body_measurements`. -/
def applyMeasurements (e : BodyWeightEntryRow) (args : Args) : BodyWeightEntryRow :=
  let e1 := if args.hasKey "body_fat_percent" then
              { e with body_fat_percent := args.getd "body_fat_percent" }
            else e
  let e2 := if args.hasKey "muscle_mass_kg" then
              { e1 with muscle_mass_kg := args.getd "muscle_mass_kg" }
            else e1
  if args.hasKey "water_percent" then
    { e2 with water_percent := args.getd "water_percent" }
  else e2

/-- The result payload of `_add_body_measurements`. -/
def bodyMeasurementsResult (tid : String) (e : BodyWeightEntryRow) : ToolResult :=
  { tool_call_id := tid,
    result := .dict [("entry_id", .str (toString e.id)),
                     ("body_fat_percent", e.body_fat_percent),
                     ("muscle_mass_kg", e.muscle_mass_kg),
                     ("water_percent", e.water_percent),
                     ("message", .str "Body measurements logged!")],
    success := true }

/-- The create branch of `_add_body_measurements`: a new entry stamped
`utcnow` whose weight is `user.current_weight_kg or 70`. -/
def addBodyMeasurementsCreate (env : Env) (args : Args) (tid : String) (s : AppState) :
    Except PyErr ToolResult × AppState :=
  let (eid, s1) := s.freshId
  let entry0 : BodyWeightEntryRow :=
    { id := eid, user_id := s.user.id,
      weight_kg := if s.user.current_weight_kg.truthy then s.user.current_weight_kg
                   else .int 70,
      timestamp := env.utcnow, source := "chat" }
  let entry := applyMeasurements entry0 args
  (.ok (bodyMeasurementsResult tid entry),
   { s1 with weight_entries := s1.weight_entries ++ [entry] })

/-- Model of `_add_body_measurements`: mutates the most recent entry in place
unless it is missing or `(utcnow - entry.timestamp).days > 0`. -/
def addBodyMeasurementsTool (env : Env) (args : Args) (tid : String) (s : AppState) :
    Except PyErr ToolResult × AppState :=
  match mostRecentWeightEntry s with
  | none => addBodyMeasurementsCreate env args tid s
  | some e =>
    if pyDays (env.utcnow - e.timestamp) > 0 then
      addBodyMeasurementsCreate env args tid s
    else
      let e2 := applyMeasurements e args
      (.ok (bodyMeasurementsResult tid e2),
       { s with weight_entries := s.weight_entries.map (fun x =>
           if x.id = e.id then e2 else x) })

/-- Model of `_update_profile`.  The source assigns `user.date_of_birth`, which is
not a mapped column of `UserProfile` (the model column is `birth_date`);
it is modelled as the separate unmapped `date_of_birth` field. -/
def updateProfileTool (env : Env) (args : Args) (tid : String) (s : AppState) :
    Except PyErr ToolResult × AppState :=
  let u1 := if args.hasKey "display_name" then
              { s.user with display_name := args.getd "display_name" }
            else s.user
  let u2 := if args.hasKey "height_cm" then { u1 with height_cm := args.getd "height_cm" }
            else u1
  match (if args.hasKey "date_of_birth" then
           match args.getd "date_of_birth" with
           | .str ds =>
             match env.parseDate ds with
             | some d => Except.ok (some d)
             | none => Except.error (PyErr.valueError (mkMsg "" "time data does not match format"))
           | _ => Except.error (PyErr.typeError (mkMsg "" "strptime() argument 1 must be str"))
         else Except.ok Option.none) with
  | .error e => (.error e, { s with user := u2 })
  | .ok dobOpt =>
  let u3 := match dobOpt with
            | some d => { u2 with date_of_birth := some d }
            | none => u2
  (.ok { tool_call_id := tid,
         result := .dict [("message", .str "Profile updated!"),
                          ("display_name", u3.display_name)],
         success := true },
   { s with user := u3 })

/-- The registered tool names, in the order of the `_execute_tool`
dispatch chain. -/
def toolNames : List String :=
  ["add_meal", "add_workout", "add_workout_plan", "add_water", "add_weight",
   "set_goal", "set_custom_macros", "search_food", "get_daily_summary",
   "save_favorite_food", "get_favorite_foods", "update_meal", "delete_meal",
   "update_workout", "delete_workout", "update_workout_plan",
   "delete_workout_plan", "get_weekly_summary", "add_body_measurements",
   "update_profile"]

/-- The `if/elif` dispatch chain of `_execute_tool`, before the
surrounding `try`. -/
def dispatchTool (env : Env) (call : ToolCall) (s : AppState) :
    Except PyErr ToolResult × AppState :=
  match call.name with
  | "add_meal" => addMealTool env call.arguments call.id s
  | "add_workout" => addWorkoutTool env call.arguments call.id s
  | "add_workout_plan" => addWorkoutPlanTool env call.arguments call.id s
  | "add_water" => addWaterTool env call.arguments call.id s
  | "add_weight" => addWeightTool env call.arguments call.id s
  | "set_goal" => setGoalTool env call.arguments call.id s
  | "set_custom_macros" => setCustomMacrosTool env call.arguments call.id s
  | "search_food" => searchFoodTool env call.arguments call.id s
  | "get_daily_summary" => getDailySummaryTool env call.arguments call.id s
  | "save_favorite_food" => saveFavoriteFoodTool env call.arguments call.id s
  | "get_favorite_foods" => getFavoriteFoodsTool env call.arguments call.id s
  | "update_meal" => updateMealTool env call.arguments call.id s
  | "delete_meal" => deleteMealTool env call.arguments call.id s
  | "update_workout" => updateWorkoutTool env call.arguments call.id s
  | "delete_workout" => deleteWorkoutTool env call.arguments call.id s
  | "update_workout_plan" => updateWorkoutPlanTool env call.arguments call.id s
  | "delete_workout_plan" => deleteWorkoutPlanTool env call.arguments call.id s
  | "get_weekly_summary" => getWeeklySummaryTool env call.arguments call.id s
  | "add_body_measurements" => addBodyMeasurementsTool env call.arguments call.id s
  | "update_profile" => updateProfileTool env call.arguments call.id s
  | _ =>
    (.ok { tool_call_id := call.id, result := .none, success := false,
           error := some ("Unknown tool: " ++ call.name) }, s)

/-- Model of `_execute_tool`: the dispatch chain wrapped in the per-call
`try/except` that converts any exception into a failure `ToolResult`. -/
def executeTool (env : Env) (call : ToolCall) (s : AppState) :
    ToolResult × AppState :=
  match dispatchTool env call s with
  | (.ok r, s2) => (r, s2)
  | (.error e, s2) =>
    ({ tool_call_id := call.id, result := .none, success := false,
       error := some e.msg }, s2)

/-- The tool-call loop of `chat_with_assistant` (`routes/ai.py`,
lines 126-136): every call in the list is dispatched and its result
appended. -/
def processToolCalls (env : Env) (calls : List ToolCall) (s : AppState) :
    List ToolResult × AppState :=
  match calls with
  | [] => ([], s)
  | c :: rest =>
    let (r, s1) := executeTool env c s
    let (rs, s2) := processToolCalls env rest s1
    (r :: rs, s2)

/-- The provider-relevant slice of `Settings` (`app/config.py`). -/
structure Settings where
  openai_api_key : Option String := Option.none
  openai_model : String := "gpt-4-turbo-preview"
  anthropic_api_key : Option String := Option.none
  claude_model : String := "claude-sonnet-4-20250514"
  ai_provider : String := "anthropic"

/-- Model of `AIService.__init__` builds a client only when the key is truthy. -/
def Settings.hasOpenaiClient (st : Settings) : Bool :=
  match st.openai_api_key with
  | some k => k ≠ ""
  | none => false

def Settings.hasAnthropicClient (st : Settings) : Bool :=
  match st.anthropic_api_key with
  | some k => k ≠ ""
  | none => false

inductive Provider where
  | anthropic | openai
deriving DecidableEq

/-- Model of `AIService._select_provider`. -/
def selectProvider (st : Settings) : Option Provider :=
  let preferred := pyStrip (pyLower st.ai_provider)
  if preferred = "anthropic" ∧ st.hasAnthropicClient then some .anthropic
  else if preferred = "openai" ∧ st.hasOpenaiClient then some .openai
  else if st.hasAnthropicClient then some .anthropic
  else if st.hasOpenaiClient then some .openai
  else Option.none

/-- Model of `ChatResponse` (`app/schemas/chat.py`). -/
structure ChatResponse where
  message : String
  role : MessageRole := .assistant
  tool_calls : Option (List ToolCall) := Option.none
  tool_results : Option (List ToolResult) := Option.none
  conversation_id : String
  model_used : String
  tokens_used : Option Int := Option.none
  created_entries : Option (List PyVal) := Option.none

/-- A content block of an Anthropic messages response. -/
inductive AnthBlock where
  | text (s : String)
  | toolUse (id : String) (name : String) (input : Args)

/-- An Anthropic messages response: `content` may be null
(`response.content or []`), `usage` carries input/output token counts
when reported. -/
structure AnthResp where
  content : Option (List AnthBlock)
  usage : Option (Int × Int)

/-- One tool call of an OpenAI chat-completions response, with its JSON
arguments already decoded (a decode failure is an exception inside the
`try` and is modelled as a failing vendor call). -/
structure OaiToolCallMsg where
  id : String
  name : String
  arguments : Args

/-- Model of `response.choices[0].message` of an OpenAI response. -/
structure OaiMsg where
  content : Option String
  tool_calls : Option (List OaiToolCallMsg)

structure OaiResp where
  message : OaiMsg
  total_tokens : Option Int

/-- The joined-and-stripped text of the Anthropic content blocks. -/
def anthropicText (blocks : List AnthBlock) : String :=
  pyStrip (String.intercalate "\n" (blocks.filterMap (fun b =>
    match b with
    | .text s => if s ≠ "" then some s else none
    | _ => none)))

/-- The tool calls extracted from the Anthropic content blocks. -/
def anthropicToolCalls (blocks : List AnthBlock) : List ToolCall :=
  blocks.filterMap (fun b =>
    match b with
    | .toolUse i n inp => some ⟨i, n, inp⟩
    | _ => none)

/-- The Anthropic branch of `AIService.chat`: block normalization, the
tool-only placeholder, token summation and `tool_calls or None`. -/
def normalizeAnthropic (st : Settings) (convId : String) (resp : AnthResp) :
    ChatResponse :=
  let blocks := resp.content.getD []
  let messageText := anthropicText blocks
  let toolCalls := anthropicToolCalls blocks
  let messageText :=
    if messageText = "" ∧ ¬ toolCalls.isEmpty then "I\x27ve processed your request."
    else messageText
  { message := messageText,
    tool_calls := if toolCalls.isEmpty then Option.none else some toolCalls,
    conversation_id := convId, model_used := st.claude_model,
    tokens_used := resp.usage.map (fun u => u.1 + u.2) }

/-- The OpenAI branch of `AIService.chat`: `message.content or ""` and a
tool-call list only when the vendor field is truthy. -/
def normalizeOpenai (st : Settings) (convId : String) (resp : OaiResp) :
    ChatResponse :=
  let toolCalls : Option (List ToolCall) :=
    match resp.message.tool_calls with
    | some tcs =>
      if !tcs.isEmpty then
        some (tcs.map (fun tc => ⟨tc.id, tc.name, tc.arguments⟩))
      else Option.none
    | none => Option.none
  { message := resp.message.content.getD "",
    tool_calls := toolCalls,
    conversation_id := convId, model_used := st.openai_model,
    tokens_used := resp.total_tokens }

/-- The vendor-call oracle: the minted conversation token and the outcome
of each vendor API call (`Except.error` is any exception the awaited call
raises). -/
structure ChatOracle where
  nowStamp : String
  anth : Except String AnthResp
  oai : Except String OaiResp

/-- Model of `AIService.chat`: mint a conversation id, pick a provider, call it
inside the `try`, and degrade any exception to an apologetic response
stamped with the OpenAI model name. -/
def chatService (st : Settings) (o : ChatOracle) (_userMessage : String)
    (_history : List (String × String)) (_userContext : Option (List (String × PyVal)))
    (conversationId : Option String) : ChatResponse :=
  let convId :=
    match conversationId with
    | some s => if s ≠ "" then s else o.nowStamp
    | none => o.nowStamp
  match selectProvider st with
  | none =>
    { message := "AI service is not configured. Please set ANTHROPIC_API_KEY or OPENAI_API_KEY.",
      conversation_id := convId, model_used := "none" }
  | some .anthropic =>
    match o.anth with
    | .ok resp => normalizeAnthropic st convId resp
    | .error e =>
      { message := "Sorry, I encountered an error: " ++ e,
        conversation_id := convId, model_used := st.openai_model }
  | some .openai =>
    match o.oai with
    | .ok resp => normalizeOpenai st convId resp
    | .error e =>
      { message := "Sorry, I encountered an error: " ++ e,
        conversation_id := convId, model_used := st.openai_model }

/-- The `parts` list of `AIService._build_context_message`. -/
def contextParts (ctx : List (String × PyVal)) : List String :=
  let parts := ["Current user context:"]
  let parts := if Args.hasKey ctx "name" then
                 parts ++ ["- Name: " ++ (Args.getd ctx "name").pyStr]
               else parts
  let parts := if Args.hasKey ctx "goal_type" then
                 parts ++ ["- Goal: " ++ (Args.getd ctx "goal_type").pyStr]
               else parts
  let parts := if Args.hasKey ctx "calories_target" then
                 parts ++ ["- Daily calorie target: " ++ (Args.getd ctx "calories_target").pyStr ++ " kcal"]
               else parts
  let parts := if Args.hasKey ctx "protein_target" then
                 parts ++ ["- Daily protein target: " ++ (Args.getd ctx "protein_target").pyStr ++ "g"]
               else parts
  let parts := if Args.hasKey ctx "calories_consumed_today" then
                 parts ++ ["- Calories consumed today: " ++ (Args.getd ctx "calories_consumed_today").pyStr ++ " kcal"]
               else parts
  let parts := if Args.hasKey ctx "water_today_ml" then
                 parts ++ ["- Water today: " ++ (Args.getd ctx "water_today_ml").pyStr ++ "ml"]
               else parts
  parts

/-- Model of `AIService._build_context_message`. -/
def buildContextMessage (ctx : List (String × PyVal)) : String :=
  String.intercalate "\n" (contextParts ctx)

/-- The fixed ordered field list of the user-state summary, with each
field\x27s rendering. -/
def contextFieldRenderers : List (String × (PyVal → String)) :=
  [("name", fun v => "- Name: " ++ v.pyStr),
   ("goal_type", fun v => "- Goal: " ++ v.pyStr),
   ("calories_target", fun v => "- Daily calorie target: " ++ v.pyStr ++ " kcal"),
   ("protein_target", fun v => "- Daily protein target: " ++ v.pyStr ++ "g"),
   ("calories_consumed_today", fun v => "- Calories consumed today: " ++ v.pyStr ++ " kcal"),
   ("water_today_ml", fun v => "- Water today: " ++ v.pyStr ++ "ml")]

/-- The digest as the specification describes it: a header followed by
one line per field present in the map, taken from a fixed ordered field
list, with absent fields simply omitted. -/
def contextDigestSpec (ctx : List (String × PyVal)) : String :=
  String.intercalate "\n" ("Current user context:" ::
    contextFieldRenderers.filterMap (fun kf => (dictGet ctx kf.1).map kf.2))

/-- Model of `ChatRequest` (`app/schemas/chat.py`). -/
structure ChatRequest where
  message : String
  conversation_id : Option String := Option.none
  include_context : Bool := true

/-- The history query of `chat_with_assistant`: the user\x27s rows of the
conversation ordered by timestamp ascending, limited to 20. -/
def historyQuery (db : List ChatMessageRow) (userId : Nat) (convId : String) :
    List ChatMessageRow :=
  (List.insertionSort (fun a b => a.timestamp ≤ b.timestamp)
    (db.filter (fun m => m.user_id = userId ∧ m.conversation_id = some convId))).take 20

/-- The per-row condition of the history list comprehension: role `user`
or `assistant` and truthy content with truthy stripped content. -/
def historyEntryOk (m : ChatMessageRow) : Bool :=
  (m.role = .user ∨ m.role = .assistant) ∧ m.content ≠ "" ∧ pyStrip m.content ≠ ""

/-- The history-building prefix of `chat_with_assistant` (lines 50-70):
returns the history entries as role/content pairs together with a flag
recording whether conversation storage was queried at all. -/
def buildConversationHistory (db : List ChatMessageRow) (userId : Nat)
    (req : ChatRequest) : List (String × String) × Bool :=
  match req.conversation_id with
  | some cid =>
    if req.include_context ∧ cid ≠ "" then
      (((historyQuery db userId cid).filter historyEntryOk).map
         (fun m => (m.role.value, m.content)), true)
    else ([], false)
  | none => ([], false)

/-- The per-result invariant of §3 of the design: a failure carries a null
result and a non-empty error, a success carries a null error and a
non-null result. -/
def ResultShape (r : ToolResult) : Prop :=
  (r.success = false → r.result = PyVal.none ∧ r.error ≠ Option.none ∧ r.error ≠ some "") ∧
  (r.success = true → r.error = Option.none ∧ r.result ≠ PyVal.none)

/-- What a handler owes the dispatcher: every result it returns normally
carries the originating call id and satisfies the result invariant. -/
def HandlerOk (tid : String) (out : Except PyErr ToolResult × AppState) : Prop :=
  ∀ r, out.1 = .ok r → r.tool_call_id = tid ∧ ResultShape r

/-- The entry the create branch of `_add_body_measurements` builds before
the measurement fields are attached. -/
def newBodyEntry (env : Env) (s : AppState) : BodyWeightEntryRow :=
  { id := s.next_id, user_id := s.user.id,
    weight_kg := if s.user.current_weight_kg.truthy then s.user.current_weight_kg
                 else .int 70,
    timestamp := env.utcnow, source := "chat" }

/-- A concrete environment for witness evaluation. -/
def envW : Env :=
  { utcnow := 0, now := 0, today := (2026, 10, 12), nowWeekday := 0,
    parseIso := fun _ => Option.none, parseDate := fun _ => Option.none,
    fmtDate := fun _ => "", fmtRatDate := fun _ => "",
    offBarcode := fun _ => Option.none, offSearch := fun _ => [] }

/-- A concrete user and state for witness evaluation. -/
def stateW : AppState := { user := { id := 1 } }

/-- A state whose user has a recorded current weight of zero. -/
def stateZeroWeight : AppState := { user := { id := 1, current_weight_kg := PyVal.int 0 } }

/-- A state holding one body-weight entry stamped at time 0. -/
def stateRecent : AppState :=
  { user := { id := 1 },
    weight_entries := [{ id := 5, user_id := 1, weight_kg := PyVal.num 80, timestamp := 0 }],
    next_id := 6 }

/-- Settings with no provider key configured. -/
def settingsNone : Settings := {}

/-- Settings with only the OpenAI key configured and OpenAI preferred. -/
def settingsOai : Settings := { openai_api_key := some "sk-test", ai_provider := "openai" }

/-- Settings with only the Anthropic key configured. -/
def settingsAnth : Settings := { anthropic_api_key := some "sk-ant" }

/-- An oracle whose vendor calls both raise. -/
def oracleErr : ChatOracle :=
  { nowStamp := "1700000000.0", anth := .error "boom", oai := .error "boom" }

/-- An OpenAI response carrying one tool call and no text. -/
def oaiToolOnlyResp : OaiResp :=
  { message := { content := Option.none,
                 tool_calls := some [{ id := "tc1", name := "add_water",
                                       arguments := [("amount_ml", PyVal.int 500)] }] },
    total_tokens := Option.none }

def oracleOaiToolOnly : ChatOracle :=
  { nowStamp := "1", anth := .error "unused", oai := .ok oaiToolOnlyResp }

/-- An Anthropic response carrying one tool-use block and no text. -/
def anthToolOnlyResp : AnthResp :=
  { content := some [.toolUse "tu1" "add_water" [("amount_ml", PyVal.int 500)]],
    usage := Option.none }

def oracleAnthToolOnly : ChatOracle :=
  { nowStamp := "1", anth := .ok anthToolOnlyResp, oai := .error "unused" }

/-- An oracle whose Anthropic call raises. -/
def oracleAnthErr : ChatOracle :=
  { nowStamp := "1", anth := .error "boom", oai := .error "unused" }

/-- A two-row conversation store for witness evaluation. -/
def historyDb : List ChatMessageRow :=
  [{ user_id := 1, role := .user, content := "hello", timestamp := 10,
     conversation_id := some "conv" },
   { user_id := 1, role := .system, content := "sys", timestamp := 5,
     conversation_id := some "conv" }]

def reqOn : ChatRequest :=
  { message := "hi", conversation_id := some "conv", include_context := true }

def reqOff : ChatRequest :=
  { message := "hi", conversation_id := some "conv", include_context := false }

theorem PyErr.msg_ne (e : PyErr) : e.msg ≠ "" := by
  cases e with
  | keyError k =>
    simp only [PyErr.msg]
    intro h
    have hd := congrArg String.data h
    simp [String.data_append] at hd
  | valueError m => exact m.2
  | typeError m => exact m.2

theorem addWaterTool_ok (env : Env) (args : Args) (tid : String) (s : AppState) :
    HandlerOk tid (addWaterTool env args tid s) := by
  intro r h
  unfold addWaterTool at h
  repeat' split at h
  all_goals simp at h
  all_goals try (repeat' split at h)
  all_goals try simp at h
  all_goals try (repeat' split at h)
  all_goals try simp at h
  all_goals try subst h
  all_goals simp_all [ResultShape]

theorem updateMealTool_ok (env : Env) (args : Args) (tid : String) (s : AppState) :
    HandlerOk tid (updateMealTool env args tid s) := by
  intro r h
  unfold updateMealTool at h
  repeat' split at h
  all_goals simp at h
  all_goals try (repeat' split at h)
  all_goals try simp at h
  all_goals try (repeat' split at h)
  all_goals try simp at h
  all_goals try subst h
  all_goals simp_all [ResultShape]

theorem addMealTool_ok (env : Env) (args : Args) (tid : String) (s : AppState) :
    HandlerOk tid (addMealTool env args tid s) := by
  intro r h
  unfold addMealTool at h
  repeat' split at h
  all_goals simp at h
  all_goals try (repeat' split at h)
  all_goals try simp at h
  all_goals try (repeat' split at h)
  all_goals try simp at h
  all_goals try subst h
  all_goals simp_all [ResultShape]

theorem addWorkoutTool_ok (env : Env) (args : Args) (tid : String) (s : AppState) :
    HandlerOk tid (addWorkoutTool env args tid s) := by
  intro r h
  unfold addWorkoutTool at h
  repeat' split at h
  all_goals simp at h
  all_goals try (repeat' split at h)
  all_goals try simp at h
  all_goals try (repeat' split at h)
  all_goals try simp at h
  all_goals try subst h
  all_goals simp_all [ResultShape]

theorem addWorkoutPlanTool_ok (env : Env) (args : Args) (tid : String) (s : AppState) :
    HandlerOk tid (addWorkoutPlanTool env args tid s) := by
  intro r h
  unfold addWorkoutPlanTool at h
  repeat' split at h
  all_goals simp at h
  all_goals try (repeat' split at h)
  all_goals try simp at h
  all_goals try (repeat' split at h)
  all_goals try simp at h
  all_goals try subst h
  all_goals simp_all [ResultShape]

theorem addWeightTool_ok (env : Env) (args : Args) (tid : String) (s : AppState) :
    HandlerOk tid (addWeightTool env args tid s) := by
  intro r h
  unfold addWeightTool at h
  repeat' split at h
  all_goals simp at h
  all_goals try (repeat' split at h)
  all_goals try simp at h
  all_goals try (repeat' split at h)
  all_goals try simp at h
  all_goals try subst h
  all_goals simp_all [ResultShape]

theorem setGoalTool_ok (env : Env) (args : Args) (tid : String) (s : AppState) :
    HandlerOk tid (setGoalTool env args tid s) := by
  intro r h
  unfold setGoalTool setGoalResult at h
  repeat' split at h
  all_goals simp at h
  all_goals try (repeat' split at h)
  all_goals try simp at h
  all_goals try (repeat' split at h)
  all_goals try simp at h
  all_goals try subst h
  all_goals simp_all [ResultShape]

theorem setCustomMacrosTool_ok (env : Env) (args : Args) (tid : String) (s : AppState) :
    HandlerOk tid (setCustomMacrosTool env args tid s) := by
  intro r h
  unfold setCustomMacrosTool at h
  repeat' split at h
  all_goals simp at h
  all_goals try (repeat' split at h)
  all_goals try simp at h
  all_goals try (repeat' split at h)
  all_goals try simp at h
  all_goals try subst h
  all_goals simp_all [ResultShape]

theorem searchFoodTool_ok (env : Env) (args : Args) (tid : String) (s : AppState) :
    HandlerOk tid (searchFoodTool env args tid s) := by
  intro r h
  unfold searchFoodTool at h
  repeat' split at h
  all_goals simp at h
  all_goals try (repeat' split at h)
  all_goals try simp at h
  all_goals try (repeat' split at h)
  all_goals try simp at h
  all_goals try subst h
  all_goals simp_all [ResultShape]

theorem getDailySummaryTool_ok (env : Env) (args : Args) (tid : String) (s : AppState) :
    HandlerOk tid (getDailySummaryTool env args tid s) := by
  intro r h
  unfold getDailySummaryTool at h
  repeat' split at h
  all_goals simp at h
  all_goals try (repeat' split at h)
  all_goals try simp at h
  all_goals try (repeat' split at h)
  all_goals try simp at h
  all_goals try subst h
  all_goals simp_all [ResultShape]

theorem saveFavoriteFoodTool_ok (env : Env) (args : Args) (tid : String) (s : AppState) :
    HandlerOk tid (saveFavoriteFoodTool env args tid s) := by
  intro r h
  unfold saveFavoriteFoodTool at h
  repeat' split at h
  all_goals simp at h
  all_goals try (repeat' split at h)
  all_goals try simp at h
  all_goals try (repeat' split at h)
  all_goals try simp at h
  all_goals try subst h
  all_goals simp_all [ResultShape]

theorem getFavoriteFoodsTool_ok (env : Env) (args : Args) (tid : String) (s : AppState) :
    HandlerOk tid (getFavoriteFoodsTool env args tid s) := by
  intro r h
  unfold getFavoriteFoodsTool at h
  repeat' split at h
  all_goals simp at h
  all_goals try (repeat' split at h)
  all_goals try simp at h
  all_goals try (repeat' split at h)
  all_goals try simp at h
  all_goals try subst h
  all_goals simp_all [ResultShape]

theorem deleteMealTool_ok (env : Env) (args : Args) (tid : String) (s : AppState) :
    HandlerOk tid (deleteMealTool env args tid s) := by
  intro r h
  unfold deleteMealTool at h
  repeat' split at h
  all_goals simp at h
  all_goals try (repeat' split at h)
  all_goals try simp at h
  all_goals try (repeat' split at h)
  all_goals try simp at h
  all_goals try subst h
  all_goals simp_all [ResultShape]

theorem updateWorkoutTool_ok (env : Env) (args : Args) (tid : String) (s : AppState) :
    HandlerOk tid (updateWorkoutTool env args tid s) := by
  intro r h
  unfold updateWorkoutTool at h
  repeat' split at h
  all_goals simp at h
  all_goals try (repeat' split at h)
  all_goals try simp at h
  all_goals try (repeat' split at h)
  all_goals try simp at h
  all_goals try subst h
  all_goals simp_all [ResultShape]

theorem deleteWorkoutTool_ok (env : Env) (args : Args) (tid : String) (s : AppState) :
    HandlerOk tid (deleteWorkoutTool env args tid s) := by
  intro r h
  unfold deleteWorkoutTool at h
  repeat' split at h
  all_goals simp at h
  all_goals try (repeat' split at h)
  all_goals try simp at h
  all_goals try (repeat' split at h)
  all_goals try simp at h
  all_goals try subst h
  all_goals simp_all [ResultShape]

theorem updateWorkoutPlanTool_ok (env : Env) (args : Args) (tid : String) (s : AppState) :
    HandlerOk tid (updateWorkoutPlanTool env args tid s) := by
  intro r h
  unfold updateWorkoutPlanTool at h
  repeat' split at h
  all_goals simp at h
  all_goals try (repeat' split at h)
  all_goals try simp at h
  all_goals try (repeat' split at h)
  all_goals try simp at h
  all_goals try subst h
  all_goals simp_all [ResultShape]

theorem deleteWorkoutPlanTool_ok (env : Env) (args : Args) (tid : String) (s : AppState) :
    HandlerOk tid (deleteWorkoutPlanTool env args tid s) := by
  intro r h
  unfold deleteWorkoutPlanTool at h
  repeat' split at h
  all_goals simp at h
  all_goals try (repeat' split at h)
  all_goals try simp at h
  all_goals try (repeat' split at h)
  all_goals try simp at h
  all_goals try subst h
  all_goals simp_all [ResultShape]

theorem getWeeklySummaryTool_ok (env : Env) (args : Args) (tid : String) (s : AppState) :
    HandlerOk tid (getWeeklySummaryTool env args tid s) := by
  intro r h
  unfold getWeeklySummaryTool at h
  repeat' split at h
  all_goals simp at h
  all_goals try (repeat' split at h)
  all_goals try simp at h
  all_goals try (repeat' split at h)
  all_goals try simp at h
  all_goals try subst h
  all_goals simp_all [ResultShape]

theorem addBodyMeasurementsTool_ok (env : Env) (args : Args) (tid : String) (s : AppState) :
    HandlerOk tid (addBodyMeasurementsTool env args tid s) := by
  intro r h
  unfold addBodyMeasurementsTool addBodyMeasurementsCreate bodyMeasurementsResult at h
  repeat' split at h
  all_goals simp at h
  all_goals try (repeat' split at h)
  all_goals try simp at h
  all_goals try (repeat' split at h)
  all_goals try simp at h
  all_goals try subst h
  all_goals simp_all [ResultShape]

theorem updateProfileTool_ok (env : Env) (args : Args) (tid : String) (s : AppState) :
    HandlerOk tid (updateProfileTool env args tid s) := by
  intro r h
  unfold updateProfileTool at h
  repeat' split at h
  all_goals simp at h
  all_goals try (repeat' split at h)
  all_goals try simp at h
  all_goals try (repeat' split at h)
  all_goals try simp at h
  all_goals try subst h
  all_goals simp_all [ResultShape]

theorem str_append_ne_empty (s t : String) (h : s ≠ "") : s ++ t ≠ "" := by
  intro hc
  have hd := congrArg String.data hc
  simp only [String.data_append] at hd
  rcases List.append_eq_nil.mp hd with ⟨h1, -⟩
  exact h (by cases s; simp_all)

set_option maxHeartbeats 2000000 in
theorem dispatchTool_ok (env : Env) (call : ToolCall) (s : AppState) :
    HandlerOk call.id (dispatchTool env call s) := by
  intro r h
  unfold dispatchTool at h
  split at h
  all_goals first
    | exact addMealTool_ok env call.arguments call.id s r h
    | exact addWorkoutTool_ok env call.arguments call.id s r h
    | exact addWorkoutPlanTool_ok env call.arguments call.id s r h
    | exact addWaterTool_ok env call.arguments call.id s r h
    | exact addWeightTool_ok env call.arguments call.id s r h
    | exact setGoalTool_ok env call.arguments call.id s r h
    | exact setCustomMacrosTool_ok env call.arguments call.id s r h
    | exact searchFoodTool_ok env call.arguments call.id s r h
    | exact getDailySummaryTool_ok env call.arguments call.id s r h
    | exact saveFavoriteFoodTool_ok env call.arguments call.id s r h
    | exact getFavoriteFoodsTool_ok env call.arguments call.id s r h
    | exact updateMealTool_ok env call.arguments call.id s r h
    | exact deleteMealTool_ok env call.arguments call.id s r h
    | exact updateWorkoutTool_ok env call.arguments call.id s r h
    | exact deleteWorkoutTool_ok env call.arguments call.id s r h
    | exact updateWorkoutPlanTool_ok env call.arguments call.id s r h
    | exact deleteWorkoutPlanTool_ok env call.arguments call.id s r h
    | exact getWeeklySummaryTool_ok env call.arguments call.id s r h
    | exact addBodyMeasurementsTool_ok env call.arguments call.id s r h
    | exact updateProfileTool_ok env call.arguments call.id s r h
    | (have h2 : ({ tool_call_id := call.id, result := PyVal.none, success := false,
                    error := some ("Unknown tool: " ++ call.name) } : ToolResult) = r := by
         simpa using h
       subst h2
       refine ⟨rfl, ?_⟩
       unfold ResultShape
       refine ⟨fun _ => ⟨rfl, by simp, ?_⟩, fun hc => by simp at hc⟩
       simp only [ne_eq, Option.some.injEq]
       exact str_append_ne_empty "Unknown tool: " call.name (by decide))

theorem executeTool_spec (env : Env) (call : ToolCall) (s : AppState) :
    (executeTool env call s).1.tool_call_id = call.id ∧
      ResultShape (executeTool env call s).1 := by
  have hd := dispatchTool_ok env call s
  rcases hdp : dispatchTool env call s with ⟨res, s2⟩
  cases res with
  | ok r =>
    have h1 := hd r (by rw [hdp])
    have he : executeTool env call s = (r, s2) := by
      unfold executeTool; rw [hdp]
    rw [he]
    exact h1
  | error e =>
    have he : executeTool env call s =
        ({ tool_call_id := call.id, result := .none, success := false,
           error := some e.msg }, s2) := by
      unfold executeTool; rw [hdp]
    rw [he]
    refine ⟨rfl, fun _ => ⟨rfl, by simp, ?_⟩, fun hc => by simp at hc⟩
    simpa using PyErr.msg_ne e

/-- C1.  For every list of tool calls attached to one chat turn, the
dispatch loop produces exactly as many `ToolResult`s as there are calls,
the i-th result carries exactly the i-th call\x27s id (stated as equality
of the projected id lists), and this holds for every environment and
starting state — in particular no per-call failure (modelled exception
or validation failure) prevents any sibling call from being dispatched
and yielding its own result. -/
theorem c1_dispatch_pairing (env : Env) (calls : List ToolCall) (s : AppState) :
    (processToolCalls env calls s).1.map (fun r => r.tool_call_id) =
      calls.map (fun c => c.id) ∧
    (processToolCalls env calls s).1.length = calls.length := by
  constructor
  · induction calls generalizing s with
    | nil => rfl
    | cons c rest ih =>
      unfold processToolCalls
      simp only [List.map_cons, List.cons.injEq]
      exact ⟨(executeTool_spec env c s).1, ih _⟩
  · induction calls generalizing s with
    | nil => rfl
    | cons c rest ih =>
      unfold processToolCalls
      simp only [List.length_cons]
      exact congrArg (fun n => n + 1) (ih _)

/-- C3.  Every `ToolResult` the dispatcher produces satisfies the result
invariant: `success = false` implies a null `result` and a non-empty
`error` string, and `success = true` implies a null `error` and a
non-null `result`. -/
theorem c3_result_shape (env : Env) (call : ToolCall) (s : AppState) :
    ResultShape (executeTool env call s).1 :=
  (executeTool_spec env call s).2

/-- C2.  Dispatching a tool call whose name is not registered returns a
failure result with error `Unknown tool: <name>` (name interpolated),
mutates no storage (the state is returned unchanged), and raises no
exception that aborts the turn (dispatch is total and the returned pair
is the failure result). -/
theorem c2_unknown_tool (env : Env) (call : ToolCall) (s : AppState)
    (h : call.name ∉ toolNames) :
    executeTool env call s =
      ({ tool_call_id := call.id, result := PyVal.none, success := false,
         error := some ("Unknown tool: " ++ call.name) }, s) := by
  have hd : dispatchTool env call s =
      (.ok { tool_call_id := call.id, result := PyVal.none, success := false,
             error := some ("Unknown tool: " ++ call.name) }, s) := by
    unfold dispatchTool
    split
    all_goals first
      | rfl
      | (exfalso; apply h; simp_all [toolNames])
  unfold executeTool
  rw [hd]

theorem c2_unknown_tool_witness :
    ("levitate" ∉ toolNames) ∧
    executeTool envW ⟨"call-1", "levitate", []⟩ stateW =
      ({ tool_call_id := "call-1", result := PyVal.none, success := false,
         error := some "Unknown tool: levitate" }, stateW) :=
  ⟨by decide, c2_unknown_tool envW ⟨"call-1", "levitate", []⟩ stateW (by decide)⟩

/-- C7.  For every profile lacking a recorded height, dispatching
`set_goal` with arguments `goal_type = "cut"` skips the macro
recalculation (the macro-targets row and everything else except the goal
field are unchanged), still updates `goal_type`, and reports success. -/
theorem c7_set_goal_without_height (env : Env) (tid : String) (s : AppState)
    (h : s.user.height_cm = PyVal.none) :
    executeTool env ⟨tid, "set_goal", [("goal_type", PyVal.str "cut")]⟩ s =
      ({ tool_call_id := tid,
         result := PyVal.dict [("goal_type", PyVal.str "cut"),
                               ("activity_level", PyVal.str s.user.activity_level.value)],
         success := true },
       { s with user := { s.user with goal_type := GoalType.cut } }) := by
  have hd : setGoalTool env [("goal_type", PyVal.str "cut")] tid s =
      (.ok { tool_call_id := tid,
             result := PyVal.dict [("goal_type", PyVal.str "cut"),
                                   ("activity_level", PyVal.str s.user.activity_level.value)],
             success := true },
       { s with user := { s.user with goal_type := GoalType.cut } }) := by
    have e1 : Args.hasKey [("goal_type", PyVal.str "cut")] "goal_type" = true := rfl
    have e2 : Args.getd [("goal_type", PyVal.str "cut")] "goal_type" = PyVal.str "cut" := rfl
    have e3 : Args.hasKey [("goal_type", PyVal.str "cut")] "goal_rate_kg_per_week" = false := rfl
    have e4 : Args.hasKey [("goal_type", PyVal.str "cut")] "activity_level" = false := rfl
    have e5 : Args.hasKey [("goal_type", PyVal.str "cut")] "target_weight_kg" = false := rfl
    unfold setGoalTool
    simp only [e1, e2, e3, e4, e5, GoalType.ofVal, if_true, Bool.false_eq_true, if_false]
    split
    next sx ag hma =>
      simp only [h, PyVal.truthy, Bool.and_false, Bool.false_and, if_false]
      rfl
    next hma =>
      rfl
  have hdp : dispatchTool env ⟨tid, "set_goal", [("goal_type", PyVal.str "cut")]⟩ s =
      setGoalTool env [("goal_type", PyVal.str "cut")] tid s := rfl
  unfold executeTool
  rw [hdp, hd]

theorem c7_set_goal_without_height_witness :
    stateW.user.height_cm = PyVal.none ∧
    executeTool envW ⟨"call-7", "set_goal", [("goal_type", PyVal.str "cut")]⟩ stateW =
      ({ tool_call_id := "call-7",
         result := PyVal.dict [("goal_type", PyVal.str "cut"),
                               ("activity_level", PyVal.str stateW.user.activity_level.value)],
         success := true },
       { stateW with user := { stateW.user with goal_type := GoalType.cut } }) :=
  ⟨rfl, c7_set_goal_without_height envW "call-7" stateW rfl⟩

/-- C10 (amended).  `add_body_measurements` mutates the most recent
body-weight entry in place when `(utcnow - entry.timestamp).days <= 0`
(the entry is less than one day old); otherwise it appends a fresh entry
stamped now whose weight is the user\x27s current weight when that weight
is truthy (recorded and non-zero), and the constant 70 when the current
weight is absent or zero, before attaching the given body-composition
fields; either way the call succeeds. -/
theorem c10_body_measurements (env : Env) (args : Args) (tid : String) (s : AppState) :
    (∀ e, mostRecentWeightEntry s = some e →
       pyDays (env.utcnow - e.timestamp) ≤ 0 →
       executeTool env ⟨tid, "add_body_measurements", args⟩ s =
         (bodyMeasurementsResult tid (applyMeasurements e args),
          { s with weight_entries := s.weight_entries.map (fun x =>
              if x.id = e.id then applyMeasurements e args else x) })) ∧
    ((mostRecentWeightEntry s = Option.none ∨
       (∃ e, mostRecentWeightEntry s = some e ∧ pyDays (env.utcnow - e.timestamp) > 0)) →
       executeTool env ⟨tid, "add_body_measurements", args⟩ s =
         (bodyMeasurementsResult tid (applyMeasurements (newBodyEntry env s) args),
          { s with next_id := s.next_id + 1,
                   weight_entries := s.weight_entries ++
                     [applyMeasurements (newBodyEntry env s) args] })) := by
  have hdp : dispatchTool env ⟨tid, "add_body_measurements", args⟩ s =
      addBodyMeasurementsTool env args tid s := rfl
  constructor
  · intro e he hdays
    have hb : addBodyMeasurementsTool env args tid s =
        (.ok (bodyMeasurementsResult tid (applyMeasurements e args)),
         { s with weight_entries := s.weight_entries.map (fun x =>
             if x.id = e.id then applyMeasurements e args else x) }) := by
      unfold addBodyMeasurementsTool
      split
      next h0 => rw [he] at h0; cases h0
      next e2 heq =>
        rw [he] at heq
        injection heq with h2
        subst h2
        rw [if_neg (show ¬ pyDays (env.utcnow - e.timestamp) > 0 by omega)]
    unfold executeTool
    rw [hdp, hb]
  · intro hcase
    have hb : addBodyMeasurementsTool env args tid s =
        (.ok (bodyMeasurementsResult tid (applyMeasurements (newBodyEntry env s) args)),
         { s with next_id := s.next_id + 1,
                  weight_entries := s.weight_entries ++
                    [applyMeasurements (newBodyEntry env s) args] }) := by
      unfold addBodyMeasurementsTool
      rcases hcase with hnone | ⟨e, he, hg⟩
      · split
        next h0 => rfl
        next e2 heq => rw [hnone] at heq; cases heq
      · split
        next h0 => rw [he] at h0; cases h0
        next e2 heq =>
          rw [he] at heq
          injection heq with h2
          subst h2
          rw [if_pos hg]
          rfl
    unfold executeTool
    rw [hdp, hb]

theorem c10_body_measurements_counterexample :
    stateZeroWeight.user.current_weight_kg = PyVal.int 0 ∧
    ((executeTool envW ⟨"c10", "add_body_measurements",
        [("body_fat_percent", PyVal.num 20)]⟩ stateZeroWeight).2.weight_entries.map
      (fun e => e.weight_kg)) = [PyVal.int 70] ∧
    PyVal.int 70 ≠ PyVal.int 0 := by
  refine ⟨rfl, rfl, ?_⟩
  simp

theorem c10_body_measurements_witness :
    mostRecentWeightEntry stateRecent =
      some { id := 5, user_id := 1, weight_kg := PyVal.num 80, timestamp := 0 } ∧
    pyDays (envW.utcnow - 0) ≤ 0 ∧
    executeTool envW ⟨"w10", "add_body_measurements", [("muscle_mass_kg", PyVal.num 30)]⟩
        stateRecent =
      (bodyMeasurementsResult "w10"
         (applyMeasurements { id := 5, user_id := 1, weight_kg := PyVal.num 80, timestamp := 0 }
           [("muscle_mass_kg", PyVal.num 30)]),
       { stateRecent with weight_entries := stateRecent.weight_entries.map (fun x =>
           if x.id = 5 then
             applyMeasurements { id := 5, user_id := 1, weight_kg := PyVal.num 80, timestamp := 0 }
               [("muscle_mass_kg", PyVal.num 30)]
           else x) }) :=
  ⟨rfl, by decide,
   (c10_body_measurements envW [("muscle_mass_kg", PyVal.num 30)] "w10" stateRecent).1
     { id := 5, user_id := 1, weight_kg := PyVal.num 80, timestamp := 0 } rfl (by decide)⟩

/-- C4 (amended).  With no provider credentials configured, `chat` never
raises and returns, for every message, history, context and conversation
id, the fixed not-configured message with `model_used = "none"` and a
null `tool_calls` field (no tool calls) — rather than the empty list the
claim literally states. -/
theorem c4_no_provider (st : Settings) (o : ChatOracle) (m : String)
    (hist : List (String × String)) (ctx : Option (List (String × PyVal)))
    (cid : Option String)
    (h1 : st.anthropic_api_key = Option.none) (h2 : st.openai_api_key = Option.none) :
    chatService st o m hist ctx cid =
      { message := "AI service is not configured. Please set ANTHROPIC_API_KEY or OPENAI_API_KEY.",
        conversation_id := match cid with
                           | some c => if c ≠ "" then c else o.nowStamp
                           | none => o.nowStamp,
        model_used := "none" } := by
  have hsel : selectProvider st = Option.none := by
    unfold selectProvider Settings.hasAnthropicClient Settings.hasOpenaiClient
    rw [h1, h2]
    simp
  unfold chatService
  rw [hsel]

theorem c4_no_provider_counterexample :
    settingsNone.anthropic_api_key = Option.none ∧
    settingsNone.openai_api_key = Option.none ∧
    (chatService settingsNone oracleErr "hi" [] Option.none Option.none).tool_calls ≠
      some [] := by
  refine ⟨rfl, rfl, ?_⟩
  have hn : (chatService settingsNone oracleErr "hi" [] Option.none Option.none).tool_calls =
      Option.none := rfl
  rw [hn]
  simp

theorem c4_no_provider_witness :
    settingsNone.anthropic_api_key = Option.none ∧
    chatService settingsNone oracleErr "hi" [] Option.none Option.none =
      { message := "AI service is not configured. Please set ANTHROPIC_API_KEY or OPENAI_API_KEY.",
        conversation_id := oracleErr.nowStamp, model_used := "none" } :=
  ⟨rfl, c4_no_provider settingsNone oracleErr "hi" [] Option.none Option.none rfl rfl⟩

/-- C5 (amended).  On the Anthropic branch, a vendor response carrying
tool calls and no (non-whitespace) text yields the fixed non-empty
placeholder message; the OpenAI branch instead returns
`message.content or ""`, which is empty for a tool-only response (see
the counterexample). -/
theorem c5_placeholder_anthropic (st : Settings) (o : ChatOracle) (resp : AnthResp)
    (m : String) (hist : List (String × String)) (ctx : Option (List (String × PyVal)))
    (cid : Option String)
    (hsel : selectProvider st = some Provider.anthropic)
    (hok : o.anth = Except.ok resp)
    (htc : anthropicToolCalls (resp.content.getD []) ≠ [])
    (htxt : anthropicText (resp.content.getD []) = "") :
    (chatService st o m hist ctx cid).message = "I\x27ve processed your request." ∧
    (chatService st o m hist ctx cid).message ≠ "" := by
  have hmsg : (chatService st o m hist ctx cid).message = "I\x27ve processed your request." := by
    unfold chatService
    rw [hsel, hok]
    unfold normalizeAnthropic
    simp [htxt, htc]
  exact ⟨hmsg, by rw [hmsg]; decide⟩

theorem c5_placeholder_counterexample :
    selectProvider settingsOai = some Provider.openai ∧
    oaiToolOnlyResp.message.content = Option.none ∧
    (chatService settingsOai oracleOaiToolOnly "hi" [] Option.none Option.none).tool_calls ≠
      Option.none ∧
    (chatService settingsOai oracleOaiToolOnly "hi" [] Option.none Option.none).message = "" := by
  refine ⟨rfl, rfl, ?_, rfl⟩
  have ht : (chatService settingsOai oracleOaiToolOnly "hi" [] Option.none Option.none).tool_calls =
      some [⟨"tc1", "add_water", [("amount_ml", PyVal.int 500)]⟩] := rfl
  rw [ht]
  simp

theorem c5_placeholder_witness :
    selectProvider settingsAnth = some Provider.anthropic ∧
    anthropicToolCalls (anthToolOnlyResp.content.getD []) ≠ [] ∧
    anthropicText (anthToolOnlyResp.content.getD []) = "" ∧
    (chatService settingsAnth oracleAnthToolOnly "hi" [] Option.none Option.none).message =
      "I\x27ve processed your request." :=
  ⟨rfl, by simp [anthropicToolCalls, anthToolOnlyResp], rfl,
   (c5_placeholder_anthropic settingsAnth oracleAnthToolOnly anthToolOnlyResp
      "hi" [] Option.none Option.none rfl rfl
      (by simp [anthropicToolCalls, anthToolOnlyResp]) rfl).1⟩

/-- C9.  When the provider call raises, the degraded response always
reports `model_used = settings.openai_model` — even when the selected
provider was Anthropic — and carries no tool calls. -/
theorem c9_degraded_openai_model (st : Settings) (o : ChatOracle) (e : String)
    (m : String) (hist : List (String × String)) (ctx : Option (List (String × PyVal)))
    (cid : Option String)
    (h : (selectProvider st = some Provider.anthropic ∧ o.anth = Except.error e) ∨
         (selectProvider st = some Provider.openai ∧ o.oai = Except.error e)) :
    (chatService st o m hist ctx cid).model_used = st.openai_model ∧
    (chatService st o m hist ctx cid).tool_calls = Option.none ∧
    (chatService st o m hist ctx cid).message = "Sorry, I encountered an error: " ++ e := by
  rcases h with ⟨hsel, herr⟩ | ⟨hsel, herr⟩ <;>
    (unfold chatService; rw [hsel, herr]; exact ⟨rfl, rfl, rfl⟩)

theorem c9_degraded_openai_model_witness :
    selectProvider settingsAnth = some Provider.anthropic ∧
    oracleAnthErr.anth = Except.error "boom" ∧
    (chatService settingsAnth oracleAnthErr "hi" [] Option.none Option.none).model_used =
      settingsAnth.openai_model ∧
    (chatService settingsAnth oracleAnthErr "hi" [] Option.none Option.none).tool_calls =
      Option.none :=
  ⟨rfl, rfl,
   (c9_degraded_openai_model settingsAnth oracleAnthErr "boom" "hi" [] Option.none Option.none
      (Or.inl ⟨rfl, rfl⟩)).1,
   (c9_degraded_openai_model settingsAnth oracleAnthErr "boom" "hi" [] Option.none Option.none
      (Or.inl ⟨rfl, rfl⟩)).2.1⟩

/-- C6.  History building: with `include_context = false` or no
conversation id, storage is never queried and the history is empty; with
`include_context = true` and a (truthy) conversation id, the history is
the map of the role/content pairs of the user-and-assistant,
non-blank-content rows of the query, which returns that user\x27s turns of
that conversation ordered by timestamp ascending and capped at 20; a
conversation with no rows yields an empty history without error. -/
theorem c6_history_building (db : List ChatMessageRow) (uid : Nat) (req : ChatRequest) :
    ((req.include_context = false ∨ req.conversation_id = Option.none) →
      buildConversationHistory db uid req = ([], false)) ∧
    (∀ cid, req.conversation_id = some cid → req.include_context = true → cid ≠ "" →
      buildConversationHistory db uid req =
        (((historyQuery db uid cid).filter historyEntryOk).map
           (fun m => (m.role.value, m.content)), true) ∧
      (buildConversationHistory db uid req).1.length ≤ 20 ∧
      List.Sorted (fun a b : ChatMessageRow => a.timestamp ≤ b.timestamp)
        (historyQuery db uid cid) ∧
      (∀ m ∈ historyQuery db uid cid,
        m ∈ db ∧ m.user_id = uid ∧ m.conversation_id = some cid) ∧
      (∀ p ∈ (buildConversationHistory db uid req).1,
        (p.1 = "user" ∨ p.1 = "assistant") ∧ pyStrip p.2 ≠ "") ∧
      (db.filter (fun m => m.user_id = uid ∧ m.conversation_id = some cid) = [] →
        (buildConversationHistory db uid req).1 = [])) := by
  constructor
  · rintro (hinc | hcid)
    · unfold buildConversationHistory
      cases hc : req.conversation_id with
      | none => rfl
      | some cid => rw [hinc]; simp
    · unfold buildConversationHistory
      rw [hcid]
  · intro cid hcid hinc hne
    have hb : buildConversationHistory db uid req =
        (((historyQuery db uid cid).filter historyEntryOk).map
           (fun m => (m.role.value, m.content)), true) := by
      simp only [buildConversationHistory, hcid]
      rw [if_pos (⟨hinc, hne⟩ : req.include_context = true ∧ cid ≠ "")]
    letI : IsTotal ChatMessageRow (fun a b => a.timestamp ≤ b.timestamp) :=
      ⟨fun a b => Int.le_total a.timestamp b.timestamp⟩
    letI : IsTrans ChatMessageRow (fun a b => a.timestamp ≤ b.timestamp) :=
      ⟨fun _ _ _ hab hbc => le_trans hab hbc⟩
    refine ⟨hb, ?_, ?_, ?_, ?_, ?_⟩
    · rw [hb]
      simp only [List.length_map]
      have hf := List.length_filter_le historyEntryOk (historyQuery db uid cid)
      have h20 : (historyQuery db uid cid).length ≤ 20 := by
        unfold historyQuery
        exact List.length_take_le _ _
      omega
    · unfold historyQuery
      exact List.Pairwise.sublist (List.take_sublist _ _)
        (List.sorted_insertionSort _ _)
    · intro m hm
      unfold historyQuery at hm
      have hm2 := List.mem_of_mem_take hm
      rw [(List.perm_insertionSort _ _).mem_iff] at hm2
      obtain ⟨hdb, hcond⟩ := List.mem_filter.mp hm2
      simp only [decide_eq_true_eq] at hcond
      exact ⟨hdb, hcond.1, hcond.2⟩
    · intro p hp
      rw [hb] at hp
      obtain ⟨mrow, hm, rfl⟩ := List.mem_map.mp hp
      obtain ⟨-, hok⟩ := List.mem_filter.mp hm
      unfold historyEntryOk at hok
      simp only [Bool.and_eq_true, decide_eq_true_eq, Bool.or_eq_true] at hok
      obtain ⟨hrole, -, hsne⟩ := hok
      refine ⟨?_, hsne⟩
      rcases hrole with h | h <;> rw [h] <;> simp [MessageRole.value]
    · intro hnil
      rw [hb]
      unfold historyQuery
      rw [hnil]
      rfl

theorem c6_history_building_witness :
    buildConversationHistory historyDb 1 reqOff = ([], false) ∧
    buildConversationHistory historyDb 1 reqOn =
      (((historyQuery historyDb 1 "conv").filter historyEntryOk).map
         (fun m => (m.role.value, m.content)), true) :=
  ⟨(c6_history_building historyDb 1 reqOff).1 (Or.inl rfl),
   ((c6_history_building historyDb 1 reqOn).2 "conv" rfl rfl (by decide)).1⟩

/-- C8.  The user-state summary is a deterministic function of the
user-context map and equals the digest built from the fixed ordered
field list (name, goal, calorie target, protein target, calories
consumed today, water today) in which a field absent from the map is
simply omitted — so an absent field contributes no line at all, and in
particular is never rendered as `None` or any placeholder. -/
theorem c8_context_digest (ctx : List (String × PyVal)) :
    buildContextMessage ctx = contextDigestSpec ctx := by
  unfold buildContextMessage contextDigestSpec contextParts contextFieldRenderers
    Args.hasKey Args.getd
  cases h1 : dictGet ctx "name" <;> cases h2 : dictGet ctx "goal_type" <;>
    cases h3 : dictGet ctx "calories_target" <;> cases h4 : dictGet ctx "protein_target" <;>
    cases h5 : dictGet ctx "calories_consumed_today" <;>
    cases h6 : dictGet ctx "water_today_ml" <;>
    simp [h1, h2, h3, h4, h5, h6]

end WeightLoss
